import Mathlib

/-!
Verification of the PyTRiP98 `Cube` core (src/pytrip/cube.py, src/pytrip/dos.py)
against its natural-language specification.

Shallow embedding conventions:
* Python floats are modelled as rationals (`ℚ`); the concrete inputs used in the
  theorems below are exactly representable, so float rounding does not matter there.
* The `""` sentinels that an uninitialised `Cube` carries in numeric fields are
  modelled as `Option.none`.
* Python exceptions are modelled with `Except String`; the message records the
  exception kind.
* numpy arrays are modelled as lists (flattened in C order where the shape is
  irrelevant to the claim under study).
-/

set_option maxRecDepth 4000

/- The bundled Batteries marks the core rational arithmetic `@[irreducible]`,
which blocks `decide` on concrete cube states.  The kernel is unaffected by
reducibility attributes; re-enabling unfolding only lets the elaborator
evaluate the executable definitions below on concrete inputs. -/
set_option allowUnsafeReducibility true in
attribute [semireducible] Rat.add Rat.sub Rat.mul Rat.inv Rat.div Rat.neg
  Rat.ofScientific Rat.floor Rat.ceil

namespace PyTrip

/-! ### Small text utilities (modelling Python `str.split`, `float(...)`, `int(...)`,
`"{:.7f}".format`, and `re.match` prefix tests) -/

/-- Split a character list at every occurrence of `sep` (keeping empty chunks),
like Python `str.split(sep)`. -/
def charSplit (sep : Char) : List Char → List (List Char)
  | [] => [[]]
  | c :: cs =>
    match charSplit sep cs with
    | [] => [[]]
    | h :: t => if c = sep then [] :: h :: t else (c :: h) :: t

/-- Whitespace tokenisation in the style of Python `str.split()` (no argument):
split on spaces and drop empty chunks. -/
def pyWords (s : String) : List String :=
  ((charSplit ' ' s.toList).filter (fun l => l ≠ [])).map (fun l => String.mk l)

/-- The decimal value of a nonempty, all-digit character list; `none` otherwise. -/
def decDigits? (cs : List Char) : Option Nat :=
  if cs ≠ [] ∧ cs.all Char.isDigit then
    some (cs.foldl (fun a c => 10 * a + (c.toNat - 48)) 0)
  else none

/-- Strip a leading minus sign: the pair (sign seen, remaining characters). -/
def pyStripSign (cs : List Char) : Bool × List Char :=
  match cs with
  | c :: t => if c = '-' then (true, t) else (false, c :: t)
  | [] => (false, [])

/-- Python `int(s)`: an optional sign followed by decimal digits; anything else is
a `ValueError`. -/
def pyInt (s : String) : Except String Int :=
  let sp := pyStripSign s.toList
  match decDigits? sp.2 with
  | some n => .ok (if sp.1 then -(n : Int) else (n : Int))
  | none => .error ("ValueError int " ++ s)

/-- Python `float(s)` restricted to the plain decimal forms this code base reads
and writes (optional sign, digits, optional fractional part).  Exponent and
inf/nan forms never occur in TRiP98 headers written by this module. -/
def pyFloat (s : String) : Except String ℚ :=
  let sp := pyStripSign s.toList
  let val? : Option ℚ :=
    match charSplit '.' sp.2 with
    | [ds] => (decDigits? ds).map (fun n => (n : ℚ))
    | [ipart, fpart] =>
      match ipart, fpart with
      | [], fs => (decDigits? fs).map (fun f => (f : ℚ) / 10 ^ fs.length)
      | is_, [] => (decDigits? is_).map (fun n => (n : ℚ))
      | is_, fs =>
        match decDigits? is_, decDigits? fs with
        | some n, some f => some ((n : ℚ) + (f : ℚ) / 10 ^ fs.length)
        | _, _ => none
    | _ => none
  match val? with
  | some v => .ok (if sp.1 then -v else v)
  | none => .error ("ValueError float " ++ s)

/-- The decimal digit character for `d < 10`. -/
def digitChar (d : Nat) : Char := Char.ofNat (48 + d)

/-- Digit-rendering worker, structurally recursive on a fuel bound (any fuel
above the value itself is enough, see `natDigitsAux_congr`). -/
def natDigitsAux : Nat → Nat → List Char → List Char
  | 0, _, acc => acc
  | fuel + 1, n, acc =>
    if n < 10 then digitChar n :: acc
    else natDigitsAux fuel (n / 10) (digitChar (n % 10) :: acc)

/-- The decimal digit characters of `n`, most significant first, prepended to
`acc` (this renders numbers exactly as Python `str`/`"{:d}"` does). -/
def natDigits (n : Nat) (acc : List Char) : List Char := natDigitsAux (n + 1) n acc

/-- Decimal rendering of a natural number. -/
def natStr (n : Nat) : String := String.mk (natDigits n [])

/-- Decimal rendering of an integer (Python `str`/`"{:d}"`). -/
def intStr (z : Int) : String :=
  if z < 0 then "-" ++ natStr (-z).toNat else natStr z.toNat

/-- Python `round` (banker's rounding, half to even). -/
def roundHalfEven (q : ℚ) : ℤ :=
  let f := ⌊q⌋
  let r := q - (f : ℚ)
  if r < 1 / 2 then f
  else if 1 / 2 < r then f + 1
  else if f % 2 = 0 then f else f + 1

/-- Python `"{:.Nf}".format(q)`: fixed-point formatting with `decimals` digits,
rounding half to even: optional sign, decimal integer part, dot, and the
fractional part zero-padded on the left to `decimals` digits.  The magnitude is
rounded after taking the absolute value, so the rounded integer is nonnegative
and `toNat` is exact. -/
def fmtFixed (decimals : Nat) (q : ℚ) : String :=
  let neg := q < 0
  let m := (roundHalfEven ((if neg then -q else q) * 10 ^ decimals)).toNat
  String.mk ((if neg then ['-'] else []) ++
    natDigits (m / 10 ^ decimals) [] ++ '.' ::
      (List.replicate (decimals - (natDigits (m % 10 ^ decimals) []).length) '0' ++
        natDigits (m % 10 ^ decimals) []))

/-- `"{:.7f}"`, the format used for `pixel_size` and `slice_distance` in
`_write_trip_header`. -/
def fmt7 (q : ℚ) : String := fmtFixed 7 q

/-- `"{:14.4f}"`-style value formatting used for the slice-position table (the
fixed width only inserts spaces, which tokenisation removes again). -/
def fmt4 (q : ℚ) : String := fmtFixed 4 q

/-- A header line, as the list of its whitespace-separated tokens (what
`content[i].split()` yields). -/
abbrev HLine := List String

/-- `re.match(pat, line)` for the constant directive patterns used in
`_parse_trip_header`: a prefix test on the line.  All the patterns are
whitespace-free, so the test on the whitespace-joined line is equivalent to a
prefix test on the first token: a pattern longer than the first token would
have to match the separating blank, which a blank-free pattern cannot. -/
def matchesDirective (pat : String) (l : HLine) : Bool :=
  pat.toList.isPrefixOf (l.headD "").toList

/-- `content[i].split()[1]`: the second token, or an `IndexError`. -/
def tok1 (l : HLine) : Except String String :=
  match l.get? 1 with
  | some t => .ok t
  | none => .error "IndexError split"

/-! ### Element-type selection (`Cube._set_number_of_bytes`, `Cube._set_format_str`) -/

/-- The numpy element types the codec can select. -/
inductive PyDataType where
  | int8
  | int16
  | int32
  | float32
  | float64
deriving DecidableEq, Repr

/-- `Cube._set_number_of_bytes`, parametrised over the fields it reads
(`data_type`, `num_bytes`) and mutates (`format_str`, `pydata_type`).
The source uses a chain of independent `if`s whose conditions are mutually
exclusive, so nested `if`s are equivalent.  Note that a recognised
`data_type` with an unsupported byte count falls through all branches and
returns with `format_str` and `pydata_type` untouched; only an unrecognised
`data_type` reaches `raise IOError("Unsupported format.")`. -/
def set_number_of_bytes (data_type : String) (num_bytes : Option Int)
    (format_str : String) (pydata_type : Option PyDataType) :
    Except String (String × Option PyDataType) :=
  if data_type = "integer" then
    if num_bytes = some 1 then .ok (format_str ++ "b", some .int8)
    else if num_bytes = some 2 then .ok (format_str ++ "h", some .int16)
    else if num_bytes = some 4 then .ok (format_str ++ "i", some .int32)
    else .ok (format_str, pydata_type)
  else if data_type = "float" ∨ data_type = "double" then
    if num_bytes = some 4 then .ok (format_str ++ "f", some .float32)
    else if num_bytes = some 8 then .ok (format_str ++ "d", some .float64)
    else .ok (format_str, pydata_type)
  else .error "IOError Unsupported format."

/-- `Cube._set_format_str`: choose the endianness tag from `byte_order`, then
run `_set_number_of_bytes`.  A `byte_order` other than `vms`/`aix` leaves
`format_str` unassigned, so the subsequent `+=` raises `AttributeError`. -/
def set_format_str (byte_order data_type : String) (num_bytes : Option Int)
    (pydata_type : Option PyDataType) : Except String (String × Option PyDataType) :=
  if byte_order = "vms" then set_number_of_bytes data_type num_bytes "<" pydata_type
  else if byte_order = "aix" then set_number_of_bytes data_type num_bytes ">" pydata_type
  else .error "AttributeError format_str"

/-! ### `Cube.check_compatibility` -/

/-- The duck-typed attribute set `check_compatibility` reads from each of its two
arguments (the method compares any cube-like objects via these five fields). -/
structure CompatGeom where
  dimx : Int
  dimy : Int
  dimz : Int
  pixel_size : ℚ
  slice_distance : ℚ
deriving DecidableEq, Repr

/-- `Cube.check_compatibility(a, b)`.  Note the pixel-size test compares the
signed difference `a.pixel_size - b.pixel_size` against `eps`; there is no
absolute value in the source. -/
def check_compatibility (a b : CompatGeom) : Bool :=
  if a.dimx ≠ b.dimx then false
  else if a.dimy ≠ b.dimy then false
  else if a.dimz ≠ b.dimz then false
  else if a.pixel_size - b.pixel_size > 1 / 100000 then false
  else if a.slice_distance ≠ b.slice_distance then false
  else true

/-! ### `Cube.merge_zero` -/

/-- numpy boolean-mask selection `xs[mask]`: the elements of `xs` at the `true`
positions of `mask`, in order. -/
def maskSelect {α : Type} (mask : List Bool) (xs : List α) : List α :=
  (List.zip mask xs).filterMap (fun p => if p.1 then some p.2 else none)

/-- numpy boolean-mask assignment `xs[mask] = vals`: replace the elements of
`xs` at the `true` positions of `mask` by the elements of `vals`, in order. -/
def maskAssign {α : Type} : List Bool → List α → List α → List α
  | true :: m, _ :: t, v :: vs => v :: maskAssign m t vs
  | false :: m, x :: t, vs => x :: maskAssign m t vs
  | _, xs, _ => xs

/-- `Cube.merge_zero`: `self.cube[self.cube == 0] = cube.cube[self.cube == 0]`,
on the (C-order flattened) voxel arrays. -/
def merge_zero (a b : List Int) : List Int :=
  maskAssign (a.map (fun x => x = 0)) a (maskSelect (a.map (fun x => x = 0)) b)

structure CubeSt where
  header_set : Bool
  version : String
  modality : String
  created_by : String
  creation_info : String
  primary_view : String
  data_type : String
  num_bytes : Option Int
  byte_order : String
  patient_name : String
  patient_id : String
  slice_dimension : Option Int
  pixel_size : Option ℚ
  slice_distance : Option ℚ
  slice_thickness : Option ℚ
  slice_number : Option Int
  xoffset : ℚ
  yoffset : ℚ
  zoffset : ℚ
  dimx : Option Int
  dimy : Option Int
  dimz : Option Int
  z_table : Bool
  slice_pos : List ℚ
  basename : String
  format_str : String
  pydata_type : Option PyDataType
  cube_dtype : Option PyDataType
  cube : List Int
deriving DecidableEq, Repr

/-- The state `Cube.__init__` produces for `Cube()` (no source cube).  The
run-time dependent strings (`getpass.getuser()`, the pytrip version banner and
the timestamp patient id) are fixed to arbitrary constants; no claim depends on
them. -/
def freshCube : CubeSt where
  header_set := false
  version := "2.0"
  modality := "CT"
  created_by := "user"
  creation_info := "Created with PyTRiP98 0.0"
  primary_view := "transversal"
  data_type := ""
  num_bytes := none
  byte_order := "vms"
  patient_name := ""
  patient_id := "20260101-000000"
  slice_dimension := none
  pixel_size := none
  slice_distance := none
  slice_thickness := none
  slice_number := none
  xoffset := 0
  yoffset := 0
  zoffset := 0
  dimx := none
  dimy := none
  dimz := none
  z_table := false
  slice_pos := []
  basename := ""
  format_str := ""
  pydata_type := none
  cube_dtype := none
  cube := []

/-- Wrap an integer into the int16 range, as `np.ones(..., dtype=np.int16) * value`
does. -/
def int16wrap (v : Int) : Int :=
  (v + 32768) % 65536 - 32768

/-- `Cube.create_empty_cube(value, dimx, dimy, dimz, pixel_size, slice_distance,
slice_offset)`, applied to a fresh cube.  The voxel array is kept flattened in C
order (`dimz * dimy * dimx` int16 entries, all equal to `value`). -/
def create_empty_cube (value : Int) (dimx dimy dimz : Nat)
    (pixel_size slice_distance : ℚ) (slice_offset : ℚ) : CubeSt :=
  { freshCube with
    dimx := some (dimx : Int)
    dimy := some (dimy : Int)
    dimz := some (dimz : Int)
    slice_number := some (dimz : Int)
    pixel_size := some pixel_size
    slice_distance := some slice_distance
    slice_thickness := some slice_distance
    cube := List.replicate (dimz * dimy * dimx) (int16wrap value)
    cube_dtype := some .int16
    slice_dimension := some (dimx : Int)
    num_bytes := some 2
    data_type := "integer"
    pydata_type := some .int16
    slice_pos := (List.range dimz).map (fun i => slice_distance * i + slice_offset)
    header_set := true
    patient_id := "" }

/-! ### `Cube._write_trip_header`

The writer emits one directive per line; a line is modelled as its token list.
`self.dicom_data` is taken to be empty/falsy (as it is for a `DosCube` built
from scratch), so no DICOM comment lines are emitted.  String-valued fields are
tokenised with `pyWords`, mirroring what the reader's `split()` will see. -/

/-- `distutils.version.LooseVersion(v) >= LooseVersion("1.4")`, for plain
dotted-numeric version strings. -/
def versionAtLeast14 (v : String) : Bool :=
  match (charSplit '.' v.toList).map decDigits? with
  | some a :: rest =>
    a > 1 || (a == 1 &&
      (match rest with
       | some b :: _ => b ≥ 4
       | _ => false))
  | _ => false

/-- Require an optional field, failing like Python does when `"{:d}"` or
arithmetic meets the `""` sentinel. -/
def requireField {α : Type} (o : Option α) : Except String α :=
  match o with
  | some v => .ok v
  | none => .error "TypeError empty field"

/-- `str(x)` for an optional integer field (on the `""` sentinel Python's `str`
yields the empty string, which tokenises to no token at all). -/
def strIntTokens (o : Option Int) : List String :=
  match o with
  | some n => [intStr n]
  | none => []

/-- `Cube._write_trip_header`, producing the header line tokens.  `pname` is the
basename (without extension) of the header path, which the source writes as
`patient_name`. -/
def write_trip_header (c : CubeSt) (pname : String) : Except String (List HLine) := do
  let p ← requireField c.pixel_size
  if p = 0 then throw "ZeroDivisionError"
  let d ← requireField c.slice_distance
  let sdim ← requireField c.slice_dimension
  let dx ← requireField c.dimx
  let dy ← requireField c.dimy
  let ztLines : List HLine ←
    if c.z_table then do
      let th ← requireField c.slice_thickness
      pure ([["z_table", "yes"],
             ["slice_no", "position", "thickness", "gantry_tilt"]] ++
            (c.slice_pos.enum.map (fun pz =>
              [natStr (pz.1 + 1), fmt4 pz.2, fmt4 th, fmt4 0])))
    else
      pure [["z_table", "no"]]
  pure ([["version"] ++ pyWords c.version,
         ["modality"] ++ pyWords c.modality] ++
        (if versionAtLeast14 c.version then
          [["created_by"] ++ pyWords c.created_by,
           ["creation_info"] ++ pyWords c.creation_info]
         else []) ++
        [["primary_view"] ++ pyWords c.primary_view,
         ["data_type"] ++ pyWords c.data_type,
         ["num_bytes"] ++ strIntTokens c.num_bytes,
         ["byte_order"] ++ pyWords c.byte_order,
         ["patient_name"] ++ pyWords pname,
         ["slice_dimension", intStr sdim],
         ["pixel_size", fmt7 p],
         ["slice_distance", fmt7 d],
         ["slice_number"] ++ strIntTokens c.slice_number,
         ["xoffset", intStr (roundHalfEven (c.xoffset / p))],
         ["dimx", intStr dx],
         ["yoffset", intStr (roundHalfEven (c.yoffset / p))],
         ["dimy", intStr dy],
         ["zoffset", "0"],
         ["dimz"] ++ strIntTokens c.dimz] ++
        ztLines)

/-! ### `Cube._parse_trip_header`

The parser walks the header lines with an index `i`, testing every directive
pattern against each line with `re.match` (a *prefix* test).  The tests are
independent `if`s, not `elif`s, so one line can fire several of them; in
particular the pattern `"slice_no"` is a prefix of `"slice_number"`.  The
`slice_no` branch advances `i` past the following `slice_number` lines, and the
final `"#@"` test then inspects the line at the *new* index. -/

/-- The inner loop of the `slice_no` branch: read `n` slice positions from
`content` starting at line `i`, returning them with the index of the first
unread line.  A missing line is an `IndexError`; a non-numeric token is a
`ValueError`. -/
def readSliceTable (content : List HLine) : Nat → Nat → Except String (List ℚ × Nat)
  | i, 0 => .ok ([], i)
  | i, n + 1 => do
    let l ← match content.get? i with
      | some l => Except.ok l
      | none => Except.error "IndexError content"
    let t ← tok1 l
    let v ← pyFloat t
    let (rest, i2) ← readSliceTable content (i + 1) n
    pure (v :: rest, i2)

/-- One pass of the directive `if`-chain over a single line (everything before
the index-jumping `slice_no` branch).  Each `if` mirrors one
`re.match(..., content[i])` test of the source, in source order. -/
def applyDirectives (l : HLine) (s : CubeSt) : Except String CubeSt := do
  let s ← if matchesDirective "version" l then do
      let t ← tok1 l; pure { s with version := t }
    else pure s
  let s ← if matchesDirective "modality" l then do
      let t ← tok1 l; pure { s with modality := t }
    else pure s
  let s ← if matchesDirective "created_by" l then
      pure { s with created_by := String.intercalate " " l.tail }
    else pure s
  let s ← if matchesDirective "creation_info" l then
      pure { s with creation_info := String.intercalate " " l.tail }
    else pure s
  let s ← if matchesDirective "primary_view" l then do
      let t ← tok1 l; pure { s with primary_view := t }
    else pure s
  let s ← if matchesDirective "data_type" l then do
      let t ← tok1 l; pure { s with data_type := t }
    else pure s
  let s ← if matchesDirective "num_bytes" l then do
      let t ← tok1 l; let n ← pyInt t; pure { s with num_bytes := some n }
    else pure s
  let s ← if matchesDirective "byte_order" l then do
      let t ← tok1 l; pure { s with byte_order := t }
    else pure s
  let s ← if matchesDirective "patient_name" l then do
      let t ← tok1 l; pure { s with patient_name := t }
    else pure s
  let s ← if matchesDirective "slice_dimension" l then do
      let t ← tok1 l; let n ← pyInt t; pure { s with slice_dimension := some n }
    else pure s
  let s ← if matchesDirective "pixel_size" l then do
      let t ← tok1 l; let v ← pyFloat t; pure { s with pixel_size := some v }
    else pure s
  let s ← if matchesDirective "slice_distance" l then do
      let t ← tok1 l; let v ← pyFloat t
      pure { s with slice_distance := some v, slice_thickness := some v }
    else pure s
  let s ← if matchesDirective "slice_number" l then do
      let t ← tok1 l; let n ← pyInt t; pure { s with slice_number := some n }
    else pure s
  let s ← if matchesDirective "xoffset" l then do
      let t ← tok1 l; let n ← pyInt t; pure { s with xoffset := (n : ℚ) }
    else pure s
  let s ← if matchesDirective "yoffset" l then do
      let t ← tok1 l; let n ← pyInt t; pure { s with yoffset := (n : ℚ) }
    else pure s
  let s ← if matchesDirective "zoffset" l then do
      let t ← tok1 l; let n ← pyInt t; pure { s with zoffset := (n : ℚ) }
    else pure s
  let s ← if matchesDirective "dimx" l then do
      let t ← tok1 l; let n ← pyInt t; pure { s with dimx := some n }
    else pure s
  let s ← if matchesDirective "dimy" l then do
      let t ← tok1 l; let n ← pyInt t; pure { s with dimy := some n }
    else pure s
  let s ← if matchesDirective "dimz" l then do
      let t ← tok1 l; let n ← pyInt t; pure { s with dimz := some n }
    else pure s
  pure s

/-- The `while i < len(content)` loop of `_parse_trip_header`.  The fuel
argument only bounds the iteration count (each iteration advances `i` by at
least one, so `content.length + 1` units never run out). -/
def parseHeaderLoop (content : List HLine) : Nat → Nat → CubeSt → Except String CubeSt
  | 0, i, s => if i < content.length then .error "fuel" else .ok s
  | fuel + 1, i, s =>
    match content.get? i with
    | none => .ok s
    | some l => do
      let s ← applyDirectives l s
      let (s, i2) ←
        if matchesDirective "slice_no" l then do
          let n ← requireField s.slice_number
          let (pos, i2) ← readSliceTable content (i + 1) n.toNat
          pure ({ s with slice_pos := pos, z_table := true }, i2)
        else
          pure (s, i)
      let l2 ← match content.get? i2 with
        | some l2 => Except.ok l2
        | none => Except.error "IndexError content"
      -- `"#@"` comment lines carry DICOM data for an external collaborator and
      -- are collected but otherwise ignored here; none of the headers under
      -- study contain them.
      let _ := matchesDirective "#@" l2
      parseHeaderLoop content fuel (i2 + 1) s

/-- `Cube._parse_trip_header(content)`, acting on the current attribute state
`s0` (the method mutates `self`).  After the line loop the integer offsets are
scaled to millimetres and, when no `slice_no` table was seen, the slice
position table is synthesised from `zoffset` and `slice_distance` over
`range(slice_number)`; finally `_set_format_str` runs. -/
def parse_trip_header (content : List HLine) (s0 : CubeSt) : Except String CubeSt := do
  let s := { s0 with header_set := true, z_table := false }
  let s ← parseHeaderLoop content (content.length + 1) 0 s
  let p ← requireField s.pixel_size
  let d ← requireField s.slice_distance
  let s := { s with xoffset := s.xoffset * p, yoffset := s.yoffset * p,
                    zoffset := s.zoffset * d }
  let s ←
    if ¬ s.z_table then do
      let n ← requireField s.slice_number
      pure { s with
        slice_pos := (List.range n.toNat).map (fun i => s.zoffset + (i : ℚ) * d) }
    else pure s
  match set_format_str s.byte_order s.data_type s.num_bytes s.pydata_type with
  | .error e => .error e
  | .ok (fs, pdt) => pure { s with format_str := fs, pydata_type := pdt }

/-! ### TRiP98 data file I/O (`Cube._write_trip_data`, `Cube._read_trip_data_file`) -/

/-- `Cube._write_trip_data`: the voxel values written to the data file.  The
int16 values are serialised as raw bytes (with a byte swap for `aix`); at the
value level the stream carries exactly the stored voxels. -/
def write_trip_data (c : CubeSt) : List Int := c.cube

/-- The element-count part of `Cube._read_trip_data_file`: the decoded stream
must hold exactly `dimx * dimy * dimz` elements, otherwise
`IOError("Header data and dose cube size are not consistent.")`; the data is
then reshaped to `(dimz, dimy, dimx)` (kept flat here). -/
def read_trip_data (stream : List Int) (s : CubeSt) : Except String (List Int) := do
  if ¬ s.header_set then throw "InputError Header file not loaded"
  let dx ← requireField s.dimx
  let dy ← requireField s.dimy
  let dz ← requireField s.dimz
  if (stream.length : Int) = dx * dy * dz then pure stream
  else throw "IOError Header data and dose cube size are not consistent."

/-- The value recovered by parsing the 7-decimal rendering of a nonnegative
rational (`float("{:.7f}".format(q))`): `q` rounded half-to-even at the seventh
decimal digit. -/
def round7 (q : ℚ) : ℚ := ((roundHalfEven (q * 10 ^ 7)).toNat : ℚ) / 10 ^ 7

/-! ### `Cube.read` path resolution and the `FileNotFound` branch -/

/-- The error kinds surfaced by `Cube.read`. -/
inductive ReadError where
  | FileNotFound
deriving DecidableEq, Repr

/-- Modelled from the spec: file-path resolution is an external collaborator
(`TRiP98FilePath`); `basename` strips the directory part (and any recognised
extension, which the inputs used here do not carry). -/
def basenameOf (path : String) : String :=
  ((charSplit '/' path.toList).map (fun l => String.mk l)).getLastD ""

/-- Modelled from the spec: `TRiP98FileLocator` header candidates for a
basename-style path (plain and gzipped header file). -/
def headerCandidates (path : String) : List String :=
  [path ++ ".hed", path ++ ".hed.gz"]

/-- Modelled from the spec: `TRiP98FileLocator` datafile candidates for a
basename-style path with data extension `ext` (plain and gzipped). -/
def datafileCandidates (path ext : String) : List String :=
  [path ++ ext, path ++ ext ++ ".gz"]

/-- Modelled from the spec: the locator returns the first existing candidate
path, or `none` when no candidate exists on disk (`fs` is the set of existing
files). -/
def locate (fs : List String) (cands : List String) : Option String :=
  cands.find? (fun p => fs.contains p)

/-- The string-path branch of `Cube.read` up to the point where the files are
found or `FileNotFound` is raised: `self.basename` is assigned *before* the
existence check, so it is mutated even on the error path.  On success the
located header/datafile paths are handed to the actual readers. -/
def cube_read_locate (fs : List String) (ext : String) (path : String)
    (c : CubeSt) : CubeSt × Except ReadError (String × String) :=
  let c1 := { c with basename := basenameOf path }
  match locate fs (headerCandidates path), locate fs (datafileCandidates path ext) with
  | some h, some d => (c1, .ok (h, d))
  | _, _ => (c1, .error .FileNotFound)

/-! ### The copy constructor `Cube.__init__(cube)` -/

/-- `Cube.__init__` with a source cube: copy the listed attributes, rerun
`_set_format_str`/`_set_number_of_bytes` on the copied metadata, and allocate a
fresh all-zero voxel array of shape `(dimz, dimy, dimx)` with the *source*
cube's `pydata_type`.  A sentinel (`""`/`none`) `data_type` raises `IOError`
from `_set_number_of_bytes`; sentinel or negative dimensions fail at
`np.zeros`. -/
def cubeCopy (c : CubeSt) : Except String CubeSt := do
  let (fs, pdt) ← set_format_str c.byte_order c.data_type c.num_bytes none
  let dx ← requireField c.dimx
  let dy ← requireField c.dimy
  let dz ← requireField c.dimz
  if dx < 0 ∨ dy < 0 ∨ dz < 0 then throw "ValueError negative dimensions"
  pure { c with
    format_str := fs
    pydata_type := pdt
    cube_dtype := c.pydata_type
    cube := List.replicate (dz.toNat * dy.toNat * dx.toNat) 0 }

/-! ### `Cube.mask_by_voi_all` — scan-line rasterisation of a region of interest -/

/-- The cube geometry fields that `indices_to_pos` and the masking loops read. -/
structure MaskGeom where
  dimx : Nat
  dimy : Nat
  dimz : Nat
  pixel_size : ℚ
  xoffset : ℚ
  yoffset : ℚ
  slice_pos : List ℚ
deriving DecidableEq, Repr

/-- `Cube.indices_to_pos([i, j, k])`: voxel centre `(i + 0.5) * pixel_size`
plus the per-axis offset for x and y; the z coordinate is looked up in the
slice position table. -/
def indices_to_pos (g : MaskGeom) (i j k : Nat) : ℚ × ℚ × ℚ :=
  (((i : ℚ) + 1 / 2) * g.pixel_size + g.xoffset,
   ((j : ℚ) + 1 / 2) * g.pixel_size + g.yoffset,
   g.slice_pos.getD k 0)

/-- The inner `for i_x in range(dimx)` scan of `mask_by_voi_all`: walk the
columns left to right keeping the crossing count `k`.  When the voxel centre
passes crossing `k` the count is bumped; if it reaches the crossing-list length
the loop `break`s (this column and all later ones keep value 0, having been
checked *after* the bump).  Otherwise a voxel gets `preset` exactly when the
current count is odd.  Arguments: remaining columns, current column, current
crossing index. -/
def scanRow (g : MaskGeom) (inter : List ℚ) (preset : Int) :
    Nat → Nat → Nat → List Int
  | 0, _, _ => []
  | n + 1, ix, k =>
    if (indices_to_pos g ix 0 0).1 > inter.getD k 0 then
      if k + 1 ≥ inter.length then List.replicate (n + 1) 0
      else
        (if (k + 1) % 2 = 1 then preset else 0) ::
          scanRow g inter preset n (ix + 1) (k + 1)
    else
      (if k % 2 = 1 then preset else 0) :: scanRow g inter preset n (ix + 1) k

/-- One row of the mask: rows with an empty crossing list stay all zero. -/
def maskRow (g : MaskGeom) (inter : List ℚ) (preset : Int) : List Int :=
  if inter.length > 0 then scanRow g inter preset g.dimx 0 0
  else List.replicate g.dimx 0

/-- The `for i_y in range(dimy)` loop of `mask_by_voi_all` for slice `iz`.
When the region reports no data (`None`) for this slice the loop `break`s and
the remaining rows of the slice stay zero.  Arguments: remaining rows, current
row. -/
def maskSliceRows (g : MaskGeom) (voi : ℚ × ℚ × ℚ → Option (List ℚ))
    (preset : Int) (iz : Nat) : Nat → Nat → List (List Int)
  | 0, _ => []
  | n + 1, iy =>
    match voi (indices_to_pos g 0 iy iz) with
    | none => List.replicate (n + 1) (List.replicate g.dimx 0)
    | some inter =>
      maskRow g inter preset :: maskSliceRows g voi preset iz n (iy + 1)

/-- `Cube.mask_by_voi_all(voi, preset)`: rebuild the voxel grid from zeros,
writing `preset` into the voxels the scan-line parity test marks interior.
With `preset == 0` the loops are skipped entirely and the result is the zero
grid.  `voi` is the external region-of-interest collaborator, queried through
`get_row_intersections` at the row's voxel-centre position. -/
def mask_by_voi_all (g : MaskGeom) (voi : ℚ × ℚ × ℚ → Option (List ℚ))
    (preset : Int) : List (List (List Int)) :=
  if preset ≠ 0 then
    (List.range g.dimz).map (fun iz => maskSliceRows g voi preset iz g.dimy 0)
  else
    List.replicate g.dimz (List.replicate g.dimy (List.replicate g.dimx 0))

/-- The concrete geometry of claim C1: a 10x10x1 cube with 1 mm pixels, zero
offsets and a single slice at z = 0. -/
def geomC1 : MaskGeom :=
  { dimx := 10, dimy := 10, dimz := 1, pixel_size := 1,
    xoffset := 0, yoffset := 0, slice_pos := [0] }

/-- The concrete region of interest of claim C1: row intersections
`[2.5 mm, 7.5 mm]` for the rows whose centres lie in `[2.5, 6.5]` (the rows
with index `j ∈ [2,7)`), and the empty crossing list elsewhere. -/
def voiC1 (p : ℚ × ℚ × ℚ) : Option (List ℚ) :=
  if 5 / 2 ≤ p.2.1 ∧ p.2.1 ≤ 13 / 2 then some [5 / 2, 15 / 2] else some []

/-! ### `DosCube.calculate_dvh` -/

/-- Reverse cumulative sums: `np.cumsum(l[::-1])[::-1]`, i.e. entry `i` holds
the sum of `l` from `i` to the end. -/
def revcumsum : List ℚ → List ℚ
  | [] => []
  | x :: xs =>
    let r := revcumsum xs
    (x + r.headD 0) :: r

/-- `np.where(pred(l))[0]` : the indices of the entries satisfying `pred`, in
order, starting from index `i`. -/
def whereIdx (pred : ℚ → Bool) : List ℚ → Nat → List Nat
  | [], _ => []
  | y :: ys, i =>
    if pred y then i :: whereIdx pred ys (i + 1) else whereIdx pred ys (i + 1)

/-- Elementwise sum of two histograms (`dose_bins += contribution`). -/
def binAdd (a b : List ℚ) : List ℚ := List.zipWith (fun x y => x + y) a b

/-- Modelled from the spec: `pytriplib.calculate_dvh_slice` (a C extension not
present in the sources) bins the voxels lying inside the region, one count per
voxel, by integer dose value in `[0, 1500)`.  Specialised to a region covering
the whole slice, every voxel of the slice contributes. -/
def calculate_dvh_slice_full (vals : List Int) : List ℚ :=
  (List.range 1500).map (fun (b : Nat) => ((vals.countP (fun v => v = (b : Int))) : ℚ))

/-- The slice loop of `calculate_dvh`: `z_pos` is advanced by `slice_distance`
*before* each query, and a slice contributes whenever
`voi.get_slice_at_pos(z_pos)` is not `None` (modelled by the `active`
predicate; `calculate_dvh_slice` itself is specialised to full coverage).
Returns the accumulated bins and the `voi_and_cube_intersect` flag. -/
def dvhLoop (sd : ℚ) (active : ℚ → Bool) :
    List (List Int) → ℚ → List ℚ → Bool → List ℚ × Bool
  | [], _, bins, flag => (bins, flag)
  | sl :: rest, z, bins, flag =>
    let z2 := z + sd
    if active z2 then
      dvhLoop sd active rest z2 (binAdd bins (calculate_dvh_slice_full sl)) true
    else
      dvhLoop sd active rest z2 bins flag

/-- `DosCube.calculate_dvh(voi)` for a dose cube given as its list of slices
(each slice flattened to `dimx * dimy` values).  Mirrors the source: histogram
of 1500 per-mille bins, cumulative-from-the-top curve normalised by the total
count, near-min/near-max via `np.where` (an empty index set is the source's
`IndexError`), count-weighted mean, total volume, and a final rescale of all
five results by 1000. -/
def calculate_dvh (cube : List (List Int)) (pixel_size slice_distance : ℚ)
    (active : ℚ → Bool) :
    Option (List (ℚ × ℚ) × ℚ × ℚ × ℚ × ℚ) :=
  let (dose_bins, intersect) :=
    dvhLoop slice_distance active cube 0 (List.replicate 1500 0) false
  if intersect then
    let sum_of_doses := dose_bins.sum
    let dvh_x : List ℚ := (List.range 1500).map (fun (i : Nat) => (i : ℚ))
    let dvh_y := (revcumsum dose_bins).map (fun v => v / sum_of_doses)
    match (whereIdx (fun y => y ≥ 49 / 50) dvh_y 0).getLast?,
          (whereIdx (fun y => y ≤ 1 / 50) dvh_y 0).head? with
    | some mn, some mx =>
      let mean_dose := (List.zipWith (fun b x => b * x) dose_bins dvh_x).sum / sum_of_doses
      let mean_volume := sum_of_doses * (pixel_size * pixel_size * slice_distance)
      some (List.zipWith (fun x y => (x / 1000, y)) dvh_x dvh_y,
            (mn : ℚ) / 1000, (mx : ℚ) / 1000, mean_dose / 1000, mean_volume / 1000)
    | _, _ => none
  else none

/-- A dose cube all of whose voxels hold the integer value `v`. -/
def uniformDoseCube (dimx dimy dimz : Nat) (v : Nat) : List (List Int) :=
  List.replicate dimz (List.replicate (dimx * dimy) (v : Int))

/-! ### Lemmas: decimal rendering round-trips -/

/-- A pair of cubes equal in everything but pixel size (1 mm vs 2 mm). -/
def compatA : CompatGeom := ⟨10, 10, 10, 1, 2⟩

/-- See `compatA`. -/
def compatB : CompatGeom := ⟨10, 10, 10, 2, 2⟩

/-- A cube differing from `compatA` only in `slice_distance`. -/
def compatD : CompatGeom := ⟨10, 10, 10, 1, 3⟩

/-- A cube with a recognisable prior `basename`. -/
def cubeC6 : CubeSt := { freshCube with basename := "orig" }

/-- The voxel grid claim C1 predicts: `preset` exactly on `i, j ∈ [2,7)`. -/
def claimedC1 (p : Int) : List (List (List Int)) :=
  [(List.range 10).map (fun j => (List.range 10).map (fun i =>
    if 2 ≤ i ∧ i < 7 ∧ 2 ≤ j ∧ j < 7 then p else 0))]

/-- The voxel grid the scan line actually produces: `preset` on `i ∈ [3,8)`,
`j ∈ [2,7)`.  The column test is strict (`x > crossing`), so a voxel whose
centre sits exactly on the left edge (x = 2.5) stays outside while one exactly
on the right edge (x = 7.5) stays inside: the block is one column to the right
of the claimed one. -/
def expectedC1 (p : Int) : List (List (List Int)) :=
  [(List.range 10).map (fun j => (List.range 10).map (fun i =>
    if 3 ≤ i ∧ i < 8 ∧ 2 ≤ j ∧ j < 7 then p else 0))]

/-- A header whose `slice_number` (2) differs from its `dimz` (3): the
synthesised slice table follows `slice_number`, not `dimz` as claimed. -/
def content7 : List HLine :=
  [["data_type", "integer"], ["num_bytes", "2"], ["byte_order", "vms"],
   ["pixel_size", "1"], ["slice_distance", "2"], ["slice_number", "2"],
   ["zoffset", "4"], ["dimx", "1"], ["dimy", "1"], ["dimz", "3"],
   ["z_table", "no"], []]

/-- The state `content7` parses to. -/
def c7parsed : CubeSt := ((parse_trip_header content7 freshCube).toOption).getD freshCube

lemma maskSelect_nil {α : Type} (mask : List Bool) : maskSelect (α := α) mask [] = [] := by
  cases mask <;> rfl

/-- `merge_zero` coincides with the pointwise merge that keeps nonzero entries. -/
lemma merge_zero_eq_zipWith (a b : List Int) (h : a.length = b.length) :
    merge_zero a b = List.zipWith (fun x y => if x = 0 then y else x) a b := by
  induction a generalizing b with
  | nil => cases b <;> simp [merge_zero, maskAssign]
  | cons x t ih =>
    cases b with
    | nil => simp at h
    | cons y ys =>
      have h' : t.length = ys.length := by simpa using h
      by_cases hx : x = 0
      · simp only [merge_zero, List.map_cons, hx, List.zipWith_cons_cons]
        simp only [maskSelect, List.zip_cons_cons, List.filterMap_cons, if_pos rfl,
          decide_true_eq_true]
        simp only [maskAssign, if_pos rfl]
        have := ih ys h'
        simp only [merge_zero, maskSelect] at this
        simp [this]
      · simp only [merge_zero, List.map_cons, List.zipWith_cons_cons, if_neg hx]
        have hxd : decide (x = 0) = false := by simp [hx]
        simp only [hxd]
        simp only [maskSelect, List.zip_cons_cons, List.filterMap_cons]
        simp only [maskAssign]
        have := ih ys h'
        simp only [merge_zero, maskSelect] at this
        simp [this]

/-- Characterisation of `check_compatibility`: the pixel-size condition is the
signed inequality from the source, not a symmetric tolerance. -/
lemma check_compat_iff (a b : CompatGeom) :
    check_compatibility a b = true ↔
      a.dimx = b.dimx ∧ a.dimy = b.dimy ∧ a.dimz = b.dimz ∧
      a.pixel_size - b.pixel_size ≤ 1 / 100000 ∧ a.slice_distance = b.slice_distance := by
  unfold check_compatibility
  by_cases h1 : a.dimx = b.dimx <;>
  by_cases h2 : a.dimy = b.dimy <;>
  by_cases h3 : a.dimz = b.dimz <;>
  by_cases h5 : a.slice_distance = b.slice_distance <;>
  by_cases h4 : a.pixel_size - b.pixel_size ≤ 1 / 100000 <;>
  simp_all [not_lt]

/-! ### The `Cube` attribute state

One record collects every attribute that the operations under study read or
write.  Python initialises several numeric fields with the string sentinel `""`
(modelled as `none`); `xoffset`/`yoffset`/`zoffset` start as the float `0.0`. -/

lemma isDigit_digitChar {d : Nat} (h : d < 10) : (digitChar d).isDigit = true := by
  interval_cases d <;> decide

lemma digitChar_toNat {d : Nat} (h : d < 10) : (digitChar d).toNat = 48 + d := by
  interval_cases d <;> decide

lemma natDigitsAux_congr :
    ∀ f1 : Nat, ∀ f2 n : Nat, ∀ acc, n < f1 → n < f2 →
      natDigitsAux f1 n acc = natDigitsAux f2 n acc := by
  intro f1
  induction f1 with
  | zero => omega
  | succ f1 ih =>
    intro f2 n acc h1 h2
    cases f2 with
    | zero => omega
    | succ f2 =>
      simp only [natDigitsAux]
      by_cases h : n < 10
      · rw [if_pos h, if_pos h]
      · rw [if_neg h, if_neg h]
        have hlt : n / 10 < n := Nat.div_lt_self (by omega) (by omega)
        exact ih f2 (n / 10) _ (by omega) (by omega)

lemma natDigits_unfold (n : Nat) (acc : List Char) :
    natDigits n acc =
      if n < 10 then digitChar n :: acc
      else natDigits (n / 10) (digitChar (n % 10) :: acc) := by
  unfold natDigits
  simp only [natDigitsAux]
  by_cases h : n < 10
  · rw [if_pos h, if_pos h]
  · rw [if_neg h, if_neg h]
    have hlt : n / 10 < n := Nat.div_lt_self (by omega) (by omega)
    exact natDigitsAux_congr n (n / 10 + 1) (n / 10) _ (by omega) (by omega)

lemma natDigits_append (n : Nat) : ∀ acc, natDigits n acc = natDigits n [] ++ acc := by
  induction n using Nat.strong_induction_on with
  | _ n ih =>
    intro acc
    by_cases h : n < 10
    · rw [natDigits_unfold n acc, if_pos h, natDigits_unfold n [], if_pos h]; rfl
    · have h10 : n / 10 < n := Nat.div_lt_self (by omega) (by omega)
      rw [natDigits_unfold n acc, if_neg h, natDigits_unfold n [], if_neg h,
        ih _ h10 (digitChar (n % 10) :: acc), ih _ h10 [digitChar (n % 10)]]
      simp

lemma natDigits_all_digit (n : Nat) : ∀ c ∈ natDigits n [], c.isDigit = true := by
  induction n using Nat.strong_induction_on with
  | _ n ih =>
    by_cases h : n < 10
    · rw [natDigits_unfold, if_pos h]
      intro c hc
      simp only [List.mem_singleton] at hc
      subst hc
      exact isDigit_digitChar h
    · rw [natDigits_unfold, if_neg h, natDigits_append]
      intro c hc
      rcases List.mem_append.mp hc with h1 | h1
      · exact ih _ (Nat.div_lt_self (by omega) (by omega)) c h1
      · simp only [List.mem_singleton] at h1
        subst h1
        exact isDigit_digitChar (Nat.mod_lt _ (by omega))

lemma natDigits_ne_nil (n : Nat) (acc : List Char) : natDigits n acc ≠ [] := by
  rw [natDigits_unfold]
  split
  · simp
  · rw [natDigits_append]; simp

lemma natDigits_foldl (n : Nat) :
    ∀ a, (natDigits n []).foldl (fun a c => 10 * a + (c.toNat - 48)) a
      = a * 10 ^ (natDigits n []).length + n := by
  induction n using Nat.strong_induction_on with
  | _ n ih =>
    intro a
    by_cases h : n < 10
    · rw [natDigits_unfold n [], if_pos h]
      simp only [List.foldl_cons, List.foldl_nil, List.length_cons, List.length_nil,
        digitChar_toNat h, pow_one]
      omega
    · have h10 : n / 10 < n := Nat.div_lt_self (by omega) (by omega)
      have hmod : n % 10 < 10 := Nat.mod_lt n (by omega)
      rw [natDigits_unfold n [], if_neg h, natDigits_append, List.foldl_append,
        ih _ h10, List.length_append]
      simp only [List.foldl_cons, List.foldl_nil, List.length_cons, List.length_nil,
        digitChar_toNat hmod]
      have hsub : 48 + n % 10 - 48 = n % 10 := by omega
      rw [hsub, pow_succ]
      have hdm := Nat.div_add_mod n 10
      ring_nf
      omega

lemma decDigits?_natDigits (n : Nat) : decDigits? (natDigits n []) = some n := by
  unfold decDigits?
  rw [if_pos, natDigits_foldl n 0]
  · simp
  · refine ⟨natDigits_ne_nil n [], ?_⟩
    rw [List.all_eq_true]
    intro c hc
    exact natDigits_all_digit n c hc

lemma natDigits_length_le :
    ∀ k, 1 ≤ k → ∀ n, n < 10 ^ k → (natDigits n []).length ≤ k := by
  intro k
  induction k with
  | zero => omega
  | succ k ih =>
    intro _ n hn
    by_cases h : n < 10
    · rw [natDigits_unfold, if_pos h]
      simp
    · have hk : 1 ≤ k := by
        by_contra hk0
        have : k = 0 := by omega
        subst this
        simp [pow_succ] at hn
        omega
      rw [natDigits_unfold, if_neg h, natDigits_append, List.length_append]
      have hdiv : n / 10 < 10 ^ k := by
        have := (Nat.div_lt_iff_lt_mul (by omega : 0 < 10)).mpr
          (by rw [← pow_succ]; exact hn)
        exact this
      have := ih hk (n / 10) hdiv
      simp
      omega

lemma charSplit_sepFree {sep : Char} (cs : List Char) (h : ∀ c ∈ cs, c ≠ sep) :
    charSplit sep cs = [cs] := by
  induction cs with
  | nil => rfl
  | cons c t ih =>
    rw [charSplit, ih (fun x hx => h x (List.mem_cons_of_mem c hx))]
    simp [h c (List.mem_cons_self c t)]

lemma charSplit_append {sep : Char} (A B : List Char) (hA : ∀ c ∈ A, c ≠ sep)
    (hB : ∀ c ∈ B, c ≠ sep) :
    charSplit sep (A ++ sep :: B) = [A, B] := by
  induction A with
  | nil =>
    rw [List.nil_append, charSplit, charSplit_sepFree B hB]
    simp
  | cons a t ih =>
    rw [List.cons_append, charSplit, ih (fun x hx => hA x (List.mem_cons_of_mem a hx))]
    simp [hA a (List.mem_cons_self a t)]

lemma isDigit_ne_dash {c : Char} (h : c.isDigit = true) : c ≠ '-' := by
  intro hc
  subst hc
  simp [Char.isDigit] at h

lemma isDigit_ne_dot {c : Char} (h : c.isDigit = true) : c ≠ '.' := by
  intro hc
  subst hc
  simp [Char.isDigit] at h

lemma pyStripSign_of_head_ne_dash {c : Char} (t : List Char) (hc : c ≠ '-') :
    pyStripSign (c :: t) = (false, c :: t) := by
  rw [pyStripSign, if_neg hc]

lemma pyInt_digitList (cs : List Char) (m : Nat) (hne : cs ≠ [])
    (hd : ∀ c ∈ cs, c.isDigit = true) (hv : decDigits? cs = some m) :
    pyInt (String.mk cs) = .ok (m : Int) := by
  obtain ⟨c, t, rfl⟩ := List.exists_cons_of_ne_nil hne
  have hc : c ≠ '-' := isDigit_ne_dash (hd c (List.mem_cons_self c t))
  unfold pyInt
  have htl : (String.mk (c :: t)).toList = c :: t := rfl
  rw [htl, pyStripSign_of_head_ne_dash t hc]
  simp [hv]

lemma pyInt_natStr (n : Nat) : pyInt (natStr n) = .ok (n : Int) :=
  pyInt_digitList (natDigits n []) n (natDigits_ne_nil n [])
    (natDigits_all_digit n) (decDigits?_natDigits n)

lemma intStr_natCast (n : Nat) : intStr ((n : Nat) : Int) = natStr n := by
  unfold intStr
  rw [if_neg (by omega)]
  simp

lemma pyInt_intStr_natCast (n : Nat) : pyInt (intStr ((n : Nat) : Int)) = .ok ((n : Nat) : Int) := by
  rw [intStr_natCast]
  exact pyInt_natStr n

lemma foldl_zeros (k : Nat) :
    (List.replicate k '0').foldl (fun a c => 10 * a + (c.toNat - 48)) 0 = 0 := by
  induction k with
  | zero => rfl
  | succ k ih => simpa [List.replicate_succ] using ih

lemma decDigits?_zeros_append (k : Nat) (cs : List Char) (m : Nat)
    (hv : decDigits? cs = some m) :
    decDigits? (List.replicate k '0' ++ cs) = some m := by
  unfold decDigits? at hv ⊢
  by_cases hcond : cs ≠ [] ∧ cs.all Char.isDigit
  · rw [if_pos hcond] at hv
    rw [Option.some.injEq] at hv
    have hne : List.replicate k '0' ++ cs ≠ [] := by simp [hcond.1]
    have hall : (List.replicate k '0' ++ cs).all Char.isDigit = true := by
      rw [List.all_eq_true]
      intro c hcmem
      rcases List.mem_append.mp hcmem with h1 | h1
      · rw [List.eq_of_mem_replicate h1]; decide
      · have h2 := hcond.2
        rw [List.all_eq_true] at h2
        exact h2 c h1
    rw [if_pos ⟨hne, hall⟩, List.foldl_append, foldl_zeros, hv]
  · rw [if_neg hcond] at hv
    cases hv

lemma pyFloat_digitParts (A B : List Char) (na nb : Nat) (hAne : A ≠ []) (hBne : B ≠ [])
    (hA : ∀ c ∈ A, c.isDigit = true) (hB : ∀ c ∈ B, c.isDigit = true)
    (hva : decDigits? A = some na) (hvb : decDigits? B = some nb) :
    pyFloat (String.mk (A ++ '.' :: B)) = .ok ((na : ℚ) + (nb : ℚ) / 10 ^ B.length) := by
  obtain ⟨c, t, rfl⟩ := List.exists_cons_of_ne_nil hAne
  have hc : c ≠ '-' := isDigit_ne_dash (hA c (List.mem_cons_self c t))
  unfold pyFloat
  have htl : (String.mk ((c :: t) ++ '.' :: B)).toList = (c :: t) ++ '.' :: B := rfl
  have hsp : pyStripSign ((c :: t) ++ '.' :: B) = (false, (c :: t) ++ '.' :: B) := by
    rw [List.cons_append, pyStripSign_of_head_ne_dash _ hc]
  rw [htl, hsp]
  simp only [Prod.fst, Prod.snd]
  rw [charSplit_append (c :: t) B (fun x hx => isDigit_ne_dot (hA x hx))
      (fun x hx => isDigit_ne_dot (hB x hx))]
  obtain ⟨c2, t2, rfl⟩ := List.exists_cons_of_ne_nil hBne
  simp [hva, hvb]

lemma pyFloat_fmt7 (q : ℚ) (hq : 0 ≤ q) : pyFloat (fmt7 q) = .ok (round7 q) := by
  have hM : ((roundHalfEven (q * 10 ^ 7)).toNat : ℚ) / 10 ^ 7 = round7 q := rfl
  set M := (roundHalfEven (q * 10 ^ 7)).toNat with hMdef
  have hfp : M % 10 ^ 7 < 10 ^ 7 := Nat.mod_lt _ (by norm_num)
  have hlen : (natDigits (M % 10 ^ 7) []).length ≤ 7 :=
    natDigits_length_le 7 (by norm_num) _ hfp
  have hstr : fmt7 q = String.mk (natDigits (M / 10 ^ 7) [] ++ '.' ::
      (List.replicate (7 - (natDigits (M % 10 ^ 7) []).length) '0' ++
        natDigits (M % 10 ^ 7) [])) := by
    unfold fmt7 fmtFixed
    rw [hMdef]
    simp [not_lt.mpr hq]
  rw [hstr,
    pyFloat_digitParts _ _ (M / 10 ^ 7) (M % 10 ^ 7)
      (natDigits_ne_nil _ [])
      (by simp [natDigits_ne_nil])
      (natDigits_all_digit _)
      (by
        intro x hx
        rcases List.mem_append.mp hx with h1 | h1
        · rw [List.eq_of_mem_replicate h1]; decide
        · exact natDigits_all_digit _ x h1)
      (decDigits?_natDigits _)
      (decDigits?_zeros_append _ _ _ (decDigits?_natDigits _))]
  have hBlen : (List.replicate (7 - (natDigits (M % 10 ^ 7) []).length) '0' ++
      natDigits (M % 10 ^ 7) []).length = 7 := by
    rw [List.length_append, List.length_replicate]
    omega
  rw [hBlen, ← hM]
  have hdm : 10 ^ 7 * (M / 10 ^ 7) + M % 10 ^ 7 = M := Nat.div_add_mod M (10 ^ 7)
  have hcast : ((10 ^ 7 * (M / 10 ^ 7) + M % 10 ^ 7 : Nat) : ℚ) = (M : ℚ) := by
    exact_mod_cast congrArg (fun n : Nat => (n : ℚ)) hdm
  push_cast at hcast
  rw [Except.ok.injEq]
  field_simp
  linarith

/-! ### Claim C3 / C4: `check_compatibility` -/

/-- C3, counterexample: with equal dimensions and slice distance but pixel
sizes 1 mm and 2 mm, `check_compatibility` returns `True` although
`|a.pixel_size - b.pixel_size| = 1 > 1e-5`: the source compares the *signed*
difference against `eps`, so a pixel size smaller than the other side's always
passes.  This refutes the claimed iff. -/
theorem C3_counterexample :
    check_compatibility compatA compatB = true ∧
      ¬ (|compatA.pixel_size - compatB.pixel_size| ≤ 1 / 100000) := by
  decide

/-- C3, amended: `check_compatibility(a, b)` is `True` iff the dimensions and
the slice distance agree and the signed difference
`a.pixel_size - b.pixel_size` is at most `1e-5` (no absolute value is taken in
the source). -/
theorem C3_amended (a b : CompatGeom) :
    check_compatibility a b = true ↔
      a.dimx = b.dimx ∧ a.dimy = b.dimy ∧ a.dimz = b.dimz ∧
      a.pixel_size - b.pixel_size ≤ 1 / 100000 ∧ a.slice_distance = b.slice_distance :=
  check_compat_iff a b

/-- C4, counterexample: compatibility is not symmetric.  With pixel sizes 1 mm
and 2 mm (all other fields equal), the signed-difference test accepts the order
(1, 2) and rejects (2, 1). -/
theorem C4_counterexample :
    check_compatibility compatA compatB = true ∧
      check_compatibility compatB compatA = false := by
  decide

/-- C4, amended: `check_compatibility` is symmetric whenever the two pixel
sizes are within the `1e-5` tolerance of each other; only pairs whose pixel
sizes differ by more than the tolerance are ordered asymmetrically. -/
theorem C4_amended (a b : CompatGeom)
    (h : |a.pixel_size - b.pixel_size| ≤ 1 / 100000) :
    check_compatibility a b = check_compatibility b a := by
  obtain ⟨hl, hr⟩ := abs_le.mp h
  have h1 : a.pixel_size - b.pixel_size ≤ 1 / 100000 := hr
  have h2 : b.pixel_size - a.pixel_size ≤ 1 / 100000 := by linarith
  by_cases hx : check_compatibility a b = true
  · have hc := (check_compat_iff a b).mp hx
    have hy : check_compatibility b a = true :=
      (check_compat_iff b a).mpr
        ⟨hc.1.symm, hc.2.1.symm, hc.2.2.1.symm, h2, hc.2.2.2.2.symm⟩
    rw [hx, hy]
  · have hx2 : check_compatibility a b = false := by
      cases hcb : check_compatibility a b
      · rfl
      · exact absurd hcb hx
    have hy2 : check_compatibility b a = false := by
      cases hcb : check_compatibility b a
      · rfl
      · exfalso
        have hc := (check_compat_iff b a).mp hcb
        exact hx ((check_compat_iff a b).mpr
          ⟨hc.1.symm, hc.2.1.symm, hc.2.2.1.symm, h1, hc.2.2.2.2.symm⟩)
    rw [hx2, hy2]

/-- C4, witness: `C4_amended` at a concrete pair (equal pixel sizes, different
slice distances). -/
theorem C4_witness :
    check_compatibility compatA compatD = check_compatibility compatD compatA :=
  C4_amended compatA compatD (by norm_num [compatA, compatD])

/-! ### Claim C5: element-type selection -/

/-- C5, counterexample: byte count 3 with data type `"integer"` does *not*
raise; `_set_number_of_bytes` falls through all three integer branches and
returns with `format_str` and `pydata_type` untouched.  Only an unrecognised
data type reaches the `raise IOError`. -/
theorem C5_counterexample :
    set_number_of_bytes "integer" (some 3) "<" none = .ok ("<", none) := rfl

/-- C5, amended: `_set_number_of_bytes` raises (an `IOError`, the code's
format error) exactly when the data type is outside
`{integer, float, double}`; a recognised data type with an unsupported byte
count — such as 3-byte integer — is accepted silently, leaving the format
string and element type unchanged. -/
theorem C5_amended (data_type : String) (num_bytes : Option Int)
    (format_str : String) (pydata_type : Option PyDataType) :
    ((set_number_of_bytes data_type num_bytes format_str pydata_type).isOk = true ↔
      (data_type = "integer" ∨ data_type = "float" ∨ data_type = "double")) ∧
    set_number_of_bytes "integer" (some 3) format_str pydata_type =
      .ok (format_str, pydata_type) := by
  constructor
  · unfold set_number_of_bytes
    split_ifs with h1 h2 h3 h4 h5 h6 h7 <;> simp_all [Except.isOk, Except.toBool]
  · simp [set_number_of_bytes]

/-! ### Claim C9: `merge_zero` -/

/-- C9: `merge_zero` keeps the array length and rewrites exactly the zero
voxels with the other cube's values, leaving every nonzero voxel unchanged. -/
theorem C9_merge_zero (a b : List Int) (h : a.length = b.length) :
    (merge_zero a b).length = a.length ∧
      ∀ i, i < a.length →
        (merge_zero a b).getD i 0 =
          if a.getD i 0 = 0 then b.getD i 0 else a.getD i 0 := by
  rw [merge_zero_eq_zipWith a b h]
  constructor
  · rw [List.length_zipWith, h, min_self]
  · intro i hi
    have hib : i < b.length := h ▸ hi
    have hiz : i < (List.zipWith (fun x y => if x = 0 then y else x) a b).length := by
      rw [List.length_zipWith, h, min_self]
      exact hib
    rw [List.getD_eq_getElem _ _ hiz, List.getElem_zipWith,
      List.getD_eq_getElem _ _ hi, List.getD_eq_getElem _ _ hib]

/-- C9, witness: `C9_merge_zero` on `[0, 5, 0]` and `[7, 8, 9]`: the zero
voxels take 7 and 9, the nonzero voxel keeps 5. -/
theorem C9_witness :
    (merge_zero [0, 5, 0] [7, 8, 9]).getD 0 0 = 7 ∧
      (merge_zero [0, 5, 0] [7, 8, 9]).getD 1 0 = 5 ∧
      (merge_zero [0, 5, 0] [7, 8, 9]).getD 2 0 = 9 := by
  have h := C9_merge_zero [0, 5, 0] [7, 8, 9] (by decide)
  refine ⟨?_, ?_, ?_⟩
  · rw [h.2 0 (by decide)]; decide
  · rw [h.2 1 (by decide)]; decide
  · rw [h.2 2 (by decide)]; decide

/-! ### Claim C6: `read` on a missing header -/

/-- C6, counterexample: `read` with a nonexistent path does raise
`FileNotFound`, but the target cube *is* mutated on the error path: the
string-path branch assigns `self.basename` before the existence check. -/
theorem C6_counterexample :
    (cube_read_locate [] ".dos" "missing" cubeC6).2 = .error .FileNotFound ∧
      (cube_read_locate [] ".dos" "missing" cubeC6).1 ≠ cubeC6 := by
  constructor
  · rfl
  · decide

/-- C6, amended: when the locator finds no header file, `read` (string-path
form) raises `FileNotFound`, and the only field of the target cube that has
been mutated is `basename`, set from the path before the check. -/
theorem C6_amended (fs : List String) (ext path : String) (c : CubeSt)
    (h : locate fs (headerCandidates path) = none) :
    cube_read_locate fs ext path c =
      ({ c with basename := basenameOf path }, .error .FileNotFound) := by
  unfold cube_read_locate
  rw [h]

/-- C6, witness: `C6_amended` on an empty file system. -/
theorem C6_witness :
    cube_read_locate [] ".dos" "dir/missing" cubeC6 =
      ({ cubeC6 with basename := basenameOf "dir/missing" }, .error .FileNotFound) :=
  C6_amended [] ".dos" "dir/missing" cubeC6 (by decide)

/-! ### Claim C10: the copy constructor -/

lemma except_bind_ok {e a b : Type} (x : a) (f : a → Except e b) :
    (Except.ok x : Except e a) >>= f = f x := rfl

lemma except_pure {e a : Type} (x : a) : (pure x : Except e a) = Except.ok x := rfl

lemma set_number_of_bytes_isOk (dt : String) (nb : Option Int) (fs : String)
    (pdt : Option PyDataType)
    (hdt : dt = "integer" ∨ dt = "float" ∨ dt = "double") :
    ∃ r, set_number_of_bytes dt nb fs pdt = .ok r := by
  unfold set_number_of_bytes
  rcases hdt with h | h | h <;> rw [h] <;> split_ifs <;>
    first
    | exact ⟨_, rfl⟩
    | simp_all

lemma set_format_str_isOk (bo dt : String) (nb : Option Int) (pdt : Option PyDataType)
    (hbo : bo = "vms" ∨ bo = "aix")
    (hdt : dt = "integer" ∨ dt = "float" ∨ dt = "double") :
    ∃ r, set_format_str bo dt nb pdt = .ok r := by
  unfold set_format_str
  rcases hbo with h | h
  · rw [h, if_pos rfl]
    exact set_number_of_bytes_isOk dt nb "<" pdt hdt
  · rw [h, if_neg (by decide), if_pos rfl]
    exact set_number_of_bytes_isOk dt nb ">" pdt hdt

/-- C10, counterexample: copying a freshly constructed cube (whose `data_type`
still holds the `""` sentinel) raises `IOError` from `_set_number_of_bytes`
instead of producing a copy, so the copy constructor does not work for *every*
cube. -/
theorem C10_counterexample :
    cubeCopy freshCube = .error "IOError Unsupported format." := rfl

/-- C10, amended: for a cube with a recognised data type and byte order and
integer dimensions, the copy constructor copies the geometry and header
metadata but not the voxels: the new voxel array is all zeros of size
`dimz * dimy * dimx` with the source cube's element type. -/
theorem C10_amended (c : CubeSt)
    (hdt : c.data_type = "integer" ∨ c.data_type = "float" ∨ c.data_type = "double")
    (hbo : c.byte_order = "vms" ∨ c.byte_order = "aix")
    (dx dy dz : Int) (hdx : c.dimx = some dx) (hdy : c.dimy = some dy)
    (hdz : c.dimz = some dz) (hdims : 0 ≤ dx ∧ 0 ≤ dy ∧ 0 ≤ dz) :
    ∃ d, cubeCopy c = .ok d ∧
      d.cube = List.replicate (dz.toNat * dy.toNat * dx.toNat) 0 ∧
      d.cube_dtype = c.pydata_type ∧
      d.dimx = c.dimx ∧ d.dimy = c.dimy ∧ d.dimz = c.dimz ∧
      d.pixel_size = c.pixel_size ∧ d.slice_distance = c.slice_distance ∧
      d.slice_pos = c.slice_pos ∧ d.data_type = c.data_type ∧
      d.num_bytes = c.num_bytes ∧ d.byte_order = c.byte_order ∧
      d.patient_name = c.patient_name ∧ d.version = c.version := by
  obtain ⟨⟨fs2, pdt2⟩, hsf⟩ :=
    set_format_str_isOk c.byte_order c.data_type c.num_bytes none hbo hdt
  have hneg : ¬ (dx < 0 ∨ dy < 0 ∨ dz < 0) := by
    push_neg
    exact hdims
  have hcopy : cubeCopy c = .ok
      { c with format_str := fs2, pydata_type := pdt2,
               cube_dtype := c.pydata_type,
               cube := List.replicate (dz.toNat * dy.toNat * dx.toNat) 0 } := by
    unfold cubeCopy
    rw [hsf, hdx, hdy, hdz]
    simp [requireField, except_bind_ok, except_pure, hneg]
  exact ⟨_, hcopy, rfl, rfl, rfl, rfl, rfl, rfl, rfl, rfl, rfl, rfl, rfl, rfl, rfl⟩

/-- C10, witness: `C10_amended` on a 2x2x1 int16 cube built by
`create_empty_cube`. -/
theorem C10_witness :
    ∃ d, cubeCopy (create_empty_cube 3 2 2 1 1 1 0) = .ok d ∧
      d.cube = List.replicate ((1 : Int).toNat * (2 : Int).toNat * (2 : Int).toNat) 0 ∧
      d.cube_dtype = (create_empty_cube 3 2 2 1 1 1 0).pydata_type ∧
      d.dimx = (create_empty_cube 3 2 2 1 1 1 0).dimx ∧
      d.dimy = (create_empty_cube 3 2 2 1 1 1 0).dimy ∧
      d.dimz = (create_empty_cube 3 2 2 1 1 1 0).dimz ∧
      d.pixel_size = (create_empty_cube 3 2 2 1 1 1 0).pixel_size ∧
      d.slice_distance = (create_empty_cube 3 2 2 1 1 1 0).slice_distance ∧
      d.slice_pos = (create_empty_cube 3 2 2 1 1 1 0).slice_pos ∧
      d.data_type = (create_empty_cube 3 2 2 1 1 1 0).data_type ∧
      d.num_bytes = (create_empty_cube 3 2 2 1 1 1 0).num_bytes ∧
      d.byte_order = (create_empty_cube 3 2 2 1 1 1 0).byte_order ∧
      d.patient_name = (create_empty_cube 3 2 2 1 1 1 0).patient_name ∧
      d.version = (create_empty_cube 3 2 2 1 1 1 0).version :=
  C10_amended (create_empty_cube 3 2 2 1 1 1 0) (Or.inl rfl) (Or.inl rfl)
    2 2 1 rfl rfl rfl (by decide)

/-! ### Claim C1: the rectangular mask -/

lemma scanRow_mul (g : MaskGeom) (inter : List ℚ) (p : Int) :
    ∀ n ix k, scanRow g inter p n ix k =
      (scanRow g inter 1 n ix k).map (fun e => e * p) := by
  intro n
  induction n with
  | zero => intro ix k; rfl
  | succ n ih =>
    intro ix k
    simp only [scanRow]
    split_ifs with h1 h2 <;>
      simp [ih, List.map_replicate, ite_mul, one_mul, zero_mul]

lemma maskRow_mul (g : MaskGeom) (inter : List ℚ) (p : Int) :
    maskRow g inter p = (maskRow g inter 1).map (fun e => e * p) := by
  unfold maskRow
  split_ifs with h
  · exact scanRow_mul g inter p g.dimx 0 0
  · simp [List.map_replicate]

lemma maskSliceRows_mul (g : MaskGeom) (voi : ℚ × ℚ × ℚ → Option (List ℚ))
    (p : Int) (iz : Nat) :
    ∀ n iy, maskSliceRows g voi p iz n iy =
      (maskSliceRows g voi 1 iz n iy).map (List.map (fun e => e * p)) := by
  intro n
  induction n with
  | zero => intro iy; rfl
  | succ n ih =>
    intro iy
    simp only [maskSliceRows]
    cases voi (indices_to_pos g 0 iy iz) with
    | none => simp [List.map_replicate]
    | some inter =>
      simp only [List.map_cons]
      rw [maskRow_mul g inter p, ih (iy + 1)]

lemma mask_by_voi_all_mul (g : MaskGeom) (voi : ℚ × ℚ × ℚ → Option (List ℚ))
    (p : Int) (hp : p ≠ 0) :
    mask_by_voi_all g voi p =
      (mask_by_voi_all g voi 1).map (List.map (List.map (fun e => e * p))) := by
  unfold mask_by_voi_all
  rw [if_pos hp, if_pos (by decide : (1 : Int) ≠ 0), List.map_map]
  exact List.map_congr_left (fun iz _ => maskSliceRows_mul g voi p iz g.dimy 0)

/-- C1, counterexample: on the claimed concrete case (10x10x1 cube, 1 mm
pixels, crossings `[2.5, 7.5]` on rows `j ∈ [2,7)`), `mask_by_voi_all` with
preset 1 does not produce the claimed `i, j ∈ [2,7)` block: the voxel at
`i = 2` keeps value 0 (its centre 2.5 mm is not strictly greater than the left
crossing) while the voxel at `i = 7` receives the preset. -/
theorem C1_counterexample :
    mask_by_voi_all geomC1 voiC1 1 ≠ claimedC1 1 := by
  decide

/-- C1, amended: for every nonzero preset, the marked block is exactly
`i ∈ [3,8)`, `j ∈ [2,7)` — one column to the right of the claimed block,
because the scan-line test compares voxel centres *strictly* against the
crossings; all other voxels are zero. -/
theorem C1_amended (p : Int) (hp : p ≠ 0) :
    mask_by_voi_all geomC1 voiC1 p = expectedC1 p := by
  rw [mask_by_voi_all_mul geomC1 voiC1 p hp,
    (by decide : mask_by_voi_all geomC1 voiC1 1 = expectedC1 1)]
  unfold expectedC1
  simp [List.map_map, ite_mul, one_mul, zero_mul]

/-- C1, witness: `C1_amended` with preset 2. -/
theorem C1_witness : mask_by_voi_all geomC1 voiC1 2 = expectedC1 2 :=
  C1_amended 2 (by decide)

lemma parseHeaderLoop_step (content : List HLine) (fuel i : Nat) (s s' : CubeSt)
    (l : HLine) (hget : content.get? i = some l)
    (hns : matchesDirective "slice_no" l = false)
    (happ : applyDirectives l s = .ok s') :
    parseHeaderLoop content (fuel + 1) i s = parseHeaderLoop content fuel (i + 1) s' := by
  simp only [parseHeaderLoop]
  rw [hget]
  simp only [happ, hns, except_bind_ok, except_pure, Bool.false_eq_true, if_false]
  rw [hget]

lemma parseHeaderLoop_done (content : List HLine) (fuel i : Nat) (s : CubeSt)
    (hget : content.get? i = none) :
    parseHeaderLoop content (fuel + 1) i s = .ok s := by
  simp only [parseHeaderLoop]
  rw [hget]

/-! ### Claim C2: the create/write/read round trip -/

set_option maxRecDepth 10000 in
theorem C2_counterexample :
    (create_empty_cube 0 1 1 2 1 1 5).slice_pos = [5, 6] ∧
    (((write_trip_header (create_empty_cube 0 1 1 2 1 1 5) "file") >>=
        (fun ls => parse_trip_header (ls ++ [[]]) freshCube)).map
      (fun s => s.slice_pos)).toOption = some [0, 1] := by
  constructor
  · decide
  · decide

set_option maxRecDepth 8000 in
set_option maxHeartbeats 4000000 in
/-- Claim C2 (amended): for a cube built by `create_empty_cube` with
`slice_offset = 0`, a positive pixel size and a nonnegative slice distance,
writing the TRiP header and parsing it back recovers every header-derived
field up to 7-digit formatting of `pixel_size` and `slice_distance`
(`slice_pos` is resynthesised as `i * round7 slice_distance`), and the voxel
data stream round-trips bit-identically.  A nonzero `slice_offset` is lost
(see the counterexample): the writer forces `zoffset 0` and `z_table no`. -/
theorem C2_amended (value : Int) (dimx dimy dimz : Nat) (p d : ℚ)
    (hp : 0 < p) (hd : 0 ≤ d) :
    ∃ s : CubeSt,
      ((write_trip_header (create_empty_cube value dimx dimy dimz p d 0) "file") >>=
        (fun ls => parse_trip_header (ls ++ [[]]) freshCube)) = .ok s ∧
      s.dimx = some (dimx : Int) ∧ s.dimy = some (dimy : Int) ∧
      s.dimz = some (dimz : Int) ∧ s.slice_number = some (dimz : Int) ∧
      s.data_type = "integer" ∧ s.num_bytes = some 2 ∧ s.byte_order = "vms" ∧
      s.pixel_size = some (round7 p) ∧ s.slice_distance = some (round7 d) ∧
      s.pydata_type = some .int16 ∧
      s.slice_pos = (List.range dimz).map (fun i => (i : ℚ) * round7 d) ∧
      read_trip_data (write_trip_data (create_empty_cube value dimx dimy dimz p d 0)) s
        = .ok (List.replicate (dimz * dimy * dimx) (int16wrap value)) := by
  have hpne : p ≠ 0 := ne_of_gt hp
  have h0 : intStr (roundHalfEven (0 / p)) = "0" := by
    rw [zero_div]; decide
  have h2 : intStr 2 = "2" := by decide
  have hr0 : intStr (roundHalfEven 0) = "0" := by decide
  have hpyInt2 : pyInt "2" = .ok 2 := by rfl
  have hpyInt0 : pyInt "0" = .ok 0 := by rfl
  have hic1 : String.intercalate " " ["user"] = "user" := by decide
  have hic2 : String.intercalate " " ["Created", "with", "PyTRiP98", "0.0"]
      = "Created with PyTRiP98 0.0" := by decide
  have hVer : ∀ s : CubeSt, applyDirectives ["version", "2.0"] s = .ok { s with version := "2.0" } := fun s => by
    simp [applyDirectives, matchesDirective, tok1, except_bind_ok, except_pure]
  have hMod : ∀ s : CubeSt, applyDirectives ["modality", "CT"] s = .ok { s with modality := "CT" } := fun s => by
    simp [applyDirectives, matchesDirective, tok1, except_bind_ok, except_pure]
  have hCre : ∀ s : CubeSt, applyDirectives ["created_by", "user"] s = .ok { s with created_by := "user" } := fun s => by
    simp [applyDirectives, matchesDirective, tok1, except_bind_ok, except_pure, hic1]
  have hCin : ∀ s : CubeSt, applyDirectives ["creation_info", "Created", "with", "PyTRiP98", "0.0"] s = .ok { s with creation_info := "Created with PyTRiP98 0.0" } := fun s => by
    simp [applyDirectives, matchesDirective, tok1, except_bind_ok, except_pure, hic2]
  have hPv : ∀ s : CubeSt, applyDirectives ["primary_view", "transversal"] s = .ok { s with primary_view := "transversal" } := fun s => by
    simp [applyDirectives, matchesDirective, tok1, except_bind_ok, except_pure]
  have hDt : ∀ s : CubeSt, applyDirectives ["data_type", "integer"] s = .ok { s with data_type := "integer" } := fun s => by
    simp [applyDirectives, matchesDirective, tok1, except_bind_ok, except_pure]
  have hNb : ∀ s : CubeSt, applyDirectives ["num_bytes", "2"] s = .ok { s with num_bytes := some 2 } := fun s => by
    simp [applyDirectives, matchesDirective, tok1, except_bind_ok, except_pure, hpyInt2]
  have hBo : ∀ s : CubeSt, applyDirectives ["byte_order", "vms"] s = .ok { s with byte_order := "vms" } := fun s => by
    simp [applyDirectives, matchesDirective, tok1, except_bind_ok, except_pure]
  have hPn : ∀ s : CubeSt, applyDirectives ["patient_name", "file"] s = .ok { s with patient_name := "file" } := fun s => by
    simp [applyDirectives, matchesDirective, tok1, except_bind_ok, except_pure]
  have hSd : ∀ s : CubeSt, applyDirectives ["slice_dimension", natStr dimx] s = .ok { s with slice_dimension := some (dimx : Int) } := fun s => by
    simp [applyDirectives, matchesDirective, tok1, except_bind_ok, except_pure, pyInt_natStr]
  have hPs : ∀ s : CubeSt, applyDirectives ["pixel_size", fmt7 p] s = .ok { s with pixel_size := some (round7 p) } := fun s => by
    simp [applyDirectives, matchesDirective, tok1, except_bind_ok, except_pure, pyFloat_fmt7 p hp.le]
  have hSl : ∀ s : CubeSt, applyDirectives ["slice_distance", fmt7 d] s = .ok { s with slice_distance := some (round7 d), slice_thickness := some (round7 d) } := fun s => by
    simp [applyDirectives, matchesDirective, tok1, except_bind_ok, except_pure, pyFloat_fmt7 d hd]
  have hSn : ∀ s : CubeSt, applyDirectives ["slice_number", natStr dimz] s = .ok { s with slice_number := some (dimz : Int) } := fun s => by
    simp [applyDirectives, matchesDirective, tok1, except_bind_ok, except_pure, pyInt_natStr]
  have hXo : ∀ s : CubeSt, applyDirectives ["xoffset", "0"] s = .ok { s with xoffset := 0 } := fun s => by
    simp [applyDirectives, matchesDirective, tok1, except_bind_ok, except_pure, hpyInt0]
  have hDx : ∀ s : CubeSt, applyDirectives ["dimx", natStr dimx] s = .ok { s with dimx := some (dimx : Int) } := fun s => by
    simp [applyDirectives, matchesDirective, tok1, except_bind_ok, except_pure, pyInt_natStr]
  have hYo : ∀ s : CubeSt, applyDirectives ["yoffset", "0"] s = .ok { s with yoffset := 0 } := fun s => by
    simp [applyDirectives, matchesDirective, tok1, except_bind_ok, except_pure, hpyInt0]
  have hDy : ∀ s : CubeSt, applyDirectives ["dimy", natStr dimy] s = .ok { s with dimy := some (dimy : Int) } := fun s => by
    simp [applyDirectives, matchesDirective, tok1, except_bind_ok, except_pure, pyInt_natStr]
  have hZo : ∀ s : CubeSt, applyDirectives ["zoffset", "0"] s = .ok { s with zoffset := 0 } := fun s => by
    simp [applyDirectives, matchesDirective, tok1, except_bind_ok, except_pure, hpyInt0]
  have hDz : ∀ s : CubeSt, applyDirectives ["dimz", natStr dimz] s = .ok { s with dimz := some (dimz : Int) } := fun s => by
    simp [applyDirectives, matchesDirective, tok1, except_bind_ok, except_pure, pyInt_natStr]
  have hZt : ∀ s : CubeSt, applyDirectives ["z_table", "no"] s = .ok s := fun s => by
    simp [applyDirectives, matchesDirective, tok1, except_bind_ok, except_pure]
  have hNil : ∀ s : CubeSt, applyDirectives [] s = .ok s := fun s => by
    simp [applyDirectives, matchesDirective, tok1, except_bind_ok, except_pure]
  have hw : write_trip_header (create_empty_cube value dimx dimy dimz p d 0) "file" =
      .ok [["version", "2.0"],
       ["modality", "CT"],
       ["created_by", "user"],
       ["creation_info", "Created", "with", "PyTRiP98", "0.0"],
       ["primary_view", "transversal"],
       ["data_type", "integer"],
       ["num_bytes", "2"],
       ["byte_order", "vms"],
       ["patient_name", "file"],
       ["slice_dimension", natStr dimx],
       ["pixel_size", fmt7 p],
       ["slice_distance", fmt7 d],
       ["slice_number", natStr dimz],
       ["xoffset", "0"],
       ["dimx", natStr dimx],
       ["yoffset", "0"],
       ["dimy", natStr dimy],
       ["zoffset", "0"],
       ["dimz", natStr dimz],
       ["z_table", "no"]] := by
    unfold write_trip_header
    simp [create_empty_cube, freshCube, requireField, except_bind_ok, except_pure, hpne,
      h0, h2, hr0, strIntTokens, intStr_natCast,
      (by decide : versionAtLeast14 "2.0" = true),
      (by decide : pyWords "2.0" = ["2.0"]),
      (by decide : pyWords "CT" = ["CT"]),
      (by decide : pyWords "user" = ["user"]),
      (by decide : pyWords "Created with PyTRiP98 0.0" = ["Created", "with", "PyTRiP98", "0.0"]),
      (by decide : pyWords "transversal" = ["transversal"]),
      (by decide : pyWords "integer" = ["integer"]),
      (by decide : pyWords "vms" = ["vms"]),
      (by decide : pyWords "file" = ["file"])]
  have eLoop : parseHeaderLoop ([["version", "2.0"],
       ["modality", "CT"],
       ["created_by", "user"],
       ["creation_info", "Created", "with", "PyTRiP98", "0.0"],
       ["primary_view", "transversal"],
       ["data_type", "integer"],
       ["num_bytes", "2"],
       ["byte_order", "vms"],
       ["patient_name", "file"],
       ["slice_dimension", natStr dimx],
       ["pixel_size", fmt7 p],
       ["slice_distance", fmt7 d],
       ["slice_number", natStr dimz],
       ["xoffset", "0"],
       ["dimx", natStr dimx],
       ["yoffset", "0"],
       ["dimy", natStr dimy],
       ["zoffset", "0"],
       ["dimz", natStr dimz],
       ["z_table", "no"],
       []])
      22 0 ({ freshCube with header_set := true, z_table := false } : CubeSt) = .ok (⟨true, "2.0", "CT", "user", "Created with PyTRiP98 0.0", "transversal", "integer", some 2, "vms", "file", "20260101-000000", some (dimx : Int), some (round7 p), some (round7 d), some (round7 d), some (dimz : Int), 0, 0, 0, some (dimx : Int), some (dimy : Int), some (dimz : Int), false, [], "", "", none, none, []⟩ : CubeSt) := by
    calc parseHeaderLoop ([["version", "2.0"],
       ["modality", "CT"],
       ["created_by", "user"],
       ["creation_info", "Created", "with", "PyTRiP98", "0.0"],
       ["primary_view", "transversal"],
       ["data_type", "integer"],
       ["num_bytes", "2"],
       ["byte_order", "vms"],
       ["patient_name", "file"],
       ["slice_dimension", natStr dimx],
       ["pixel_size", fmt7 p],
       ["slice_distance", fmt7 d],
       ["slice_number", natStr dimz],
       ["xoffset", "0"],
       ["dimx", natStr dimx],
       ["yoffset", "0"],
       ["dimy", natStr dimy],
       ["zoffset", "0"],
       ["dimz", natStr dimz],
       ["z_table", "no"],
       []]) 22 0 ({ freshCube with header_set := true, z_table := false } : CubeSt)
      _ = parseHeaderLoop ([["version", "2.0"],
       ["modality", "CT"],
       ["created_by", "user"],
       ["creation_info", "Created", "with", "PyTRiP98", "0.0"],
       ["primary_view", "transversal"],
       ["data_type", "integer"],
       ["num_bytes", "2"],
       ["byte_order", "vms"],
       ["patient_name", "file"],
       ["slice_dimension", natStr dimx],
       ["pixel_size", fmt7 p],
       ["slice_distance", fmt7 d],
       ["slice_number", natStr dimz],
       ["xoffset", "0"],
       ["dimx", natStr dimx],
       ["yoffset", "0"],
       ["dimy", natStr dimy],
       ["zoffset", "0"],
       ["dimz", natStr dimz],
       ["z_table", "no"],
       []]) 21 1 (⟨true, "2.0", "CT", "user", "Created with PyTRiP98 0.0", "transversal", "", none, "vms", "", "20260101-000000", none, none, none, none, none, 0, 0, 0, none, none, none, false, [], "", "", none, none, []⟩ : CubeSt) :=
            parseHeaderLoop_step _ _ _ _ _ _ rfl rfl (hVer _)
      _ = parseHeaderLoop ([["version", "2.0"],
       ["modality", "CT"],
       ["created_by", "user"],
       ["creation_info", "Created", "with", "PyTRiP98", "0.0"],
       ["primary_view", "transversal"],
       ["data_type", "integer"],
       ["num_bytes", "2"],
       ["byte_order", "vms"],
       ["patient_name", "file"],
       ["slice_dimension", natStr dimx],
       ["pixel_size", fmt7 p],
       ["slice_distance", fmt7 d],
       ["slice_number", natStr dimz],
       ["xoffset", "0"],
       ["dimx", natStr dimx],
       ["yoffset", "0"],
       ["dimy", natStr dimy],
       ["zoffset", "0"],
       ["dimz", natStr dimz],
       ["z_table", "no"],
       []]) 20 2 (⟨true, "2.0", "CT", "user", "Created with PyTRiP98 0.0", "transversal", "", none, "vms", "", "20260101-000000", none, none, none, none, none, 0, 0, 0, none, none, none, false, [], "", "", none, none, []⟩ : CubeSt) :=
            parseHeaderLoop_step _ _ _ _ _ _ rfl rfl (hMod _)
      _ = parseHeaderLoop ([["version", "2.0"],
       ["modality", "CT"],
       ["created_by", "user"],
       ["creation_info", "Created", "with", "PyTRiP98", "0.0"],
       ["primary_view", "transversal"],
       ["data_type", "integer"],
       ["num_bytes", "2"],
       ["byte_order", "vms"],
       ["patient_name", "file"],
       ["slice_dimension", natStr dimx],
       ["pixel_size", fmt7 p],
       ["slice_distance", fmt7 d],
       ["slice_number", natStr dimz],
       ["xoffset", "0"],
       ["dimx", natStr dimx],
       ["yoffset", "0"],
       ["dimy", natStr dimy],
       ["zoffset", "0"],
       ["dimz", natStr dimz],
       ["z_table", "no"],
       []]) 19 3 (⟨true, "2.0", "CT", "user", "Created with PyTRiP98 0.0", "transversal", "", none, "vms", "", "20260101-000000", none, none, none, none, none, 0, 0, 0, none, none, none, false, [], "", "", none, none, []⟩ : CubeSt) :=
            parseHeaderLoop_step _ _ _ _ _ _ rfl rfl (hCre _)
      _ = parseHeaderLoop ([["version", "2.0"],
       ["modality", "CT"],
       ["created_by", "user"],
       ["creation_info", "Created", "with", "PyTRiP98", "0.0"],
       ["primary_view", "transversal"],
       ["data_type", "integer"],
       ["num_bytes", "2"],
       ["byte_order", "vms"],
       ["patient_name", "file"],
       ["slice_dimension", natStr dimx],
       ["pixel_size", fmt7 p],
       ["slice_distance", fmt7 d],
       ["slice_number", natStr dimz],
       ["xoffset", "0"],
       ["dimx", natStr dimx],
       ["yoffset", "0"],
       ["dimy", natStr dimy],
       ["zoffset", "0"],
       ["dimz", natStr dimz],
       ["z_table", "no"],
       []]) 18 4 (⟨true, "2.0", "CT", "user", "Created with PyTRiP98 0.0", "transversal", "", none, "vms", "", "20260101-000000", none, none, none, none, none, 0, 0, 0, none, none, none, false, [], "", "", none, none, []⟩ : CubeSt) :=
            parseHeaderLoop_step _ _ _ _ _ _ rfl rfl (hCin _)
      _ = parseHeaderLoop ([["version", "2.0"],
       ["modality", "CT"],
       ["created_by", "user"],
       ["creation_info", "Created", "with", "PyTRiP98", "0.0"],
       ["primary_view", "transversal"],
       ["data_type", "integer"],
       ["num_bytes", "2"],
       ["byte_order", "vms"],
       ["patient_name", "file"],
       ["slice_dimension", natStr dimx],
       ["pixel_size", fmt7 p],
       ["slice_distance", fmt7 d],
       ["slice_number", natStr dimz],
       ["xoffset", "0"],
       ["dimx", natStr dimx],
       ["yoffset", "0"],
       ["dimy", natStr dimy],
       ["zoffset", "0"],
       ["dimz", natStr dimz],
       ["z_table", "no"],
       []]) 17 5 (⟨true, "2.0", "CT", "user", "Created with PyTRiP98 0.0", "transversal", "", none, "vms", "", "20260101-000000", none, none, none, none, none, 0, 0, 0, none, none, none, false, [], "", "", none, none, []⟩ : CubeSt) :=
            parseHeaderLoop_step _ _ _ _ _ _ rfl rfl (hPv _)
      _ = parseHeaderLoop ([["version", "2.0"],
       ["modality", "CT"],
       ["created_by", "user"],
       ["creation_info", "Created", "with", "PyTRiP98", "0.0"],
       ["primary_view", "transversal"],
       ["data_type", "integer"],
       ["num_bytes", "2"],
       ["byte_order", "vms"],
       ["patient_name", "file"],
       ["slice_dimension", natStr dimx],
       ["pixel_size", fmt7 p],
       ["slice_distance", fmt7 d],
       ["slice_number", natStr dimz],
       ["xoffset", "0"],
       ["dimx", natStr dimx],
       ["yoffset", "0"],
       ["dimy", natStr dimy],
       ["zoffset", "0"],
       ["dimz", natStr dimz],
       ["z_table", "no"],
       []]) 16 6 (⟨true, "2.0", "CT", "user", "Created with PyTRiP98 0.0", "transversal", "integer", none, "vms", "", "20260101-000000", none, none, none, none, none, 0, 0, 0, none, none, none, false, [], "", "", none, none, []⟩ : CubeSt) :=
            parseHeaderLoop_step _ _ _ _ _ _ rfl rfl (hDt _)
      _ = parseHeaderLoop ([["version", "2.0"],
       ["modality", "CT"],
       ["created_by", "user"],
       ["creation_info", "Created", "with", "PyTRiP98", "0.0"],
       ["primary_view", "transversal"],
       ["data_type", "integer"],
       ["num_bytes", "2"],
       ["byte_order", "vms"],
       ["patient_name", "file"],
       ["slice_dimension", natStr dimx],
       ["pixel_size", fmt7 p],
       ["slice_distance", fmt7 d],
       ["slice_number", natStr dimz],
       ["xoffset", "0"],
       ["dimx", natStr dimx],
       ["yoffset", "0"],
       ["dimy", natStr dimy],
       ["zoffset", "0"],
       ["dimz", natStr dimz],
       ["z_table", "no"],
       []]) 15 7 (⟨true, "2.0", "CT", "user", "Created with PyTRiP98 0.0", "transversal", "integer", some 2, "vms", "", "20260101-000000", none, none, none, none, none, 0, 0, 0, none, none, none, false, [], "", "", none, none, []⟩ : CubeSt) :=
            parseHeaderLoop_step _ _ _ _ _ _ rfl rfl (hNb _)
      _ = parseHeaderLoop ([["version", "2.0"],
       ["modality", "CT"],
       ["created_by", "user"],
       ["creation_info", "Created", "with", "PyTRiP98", "0.0"],
       ["primary_view", "transversal"],
       ["data_type", "integer"],
       ["num_bytes", "2"],
       ["byte_order", "vms"],
       ["patient_name", "file"],
       ["slice_dimension", natStr dimx],
       ["pixel_size", fmt7 p],
       ["slice_distance", fmt7 d],
       ["slice_number", natStr dimz],
       ["xoffset", "0"],
       ["dimx", natStr dimx],
       ["yoffset", "0"],
       ["dimy", natStr dimy],
       ["zoffset", "0"],
       ["dimz", natStr dimz],
       ["z_table", "no"],
       []]) 14 8 (⟨true, "2.0", "CT", "user", "Created with PyTRiP98 0.0", "transversal", "integer", some 2, "vms", "", "20260101-000000", none, none, none, none, none, 0, 0, 0, none, none, none, false, [], "", "", none, none, []⟩ : CubeSt) :=
            parseHeaderLoop_step _ _ _ _ _ _ rfl rfl (hBo _)
      _ = parseHeaderLoop ([["version", "2.0"],
       ["modality", "CT"],
       ["created_by", "user"],
       ["creation_info", "Created", "with", "PyTRiP98", "0.0"],
       ["primary_view", "transversal"],
       ["data_type", "integer"],
       ["num_bytes", "2"],
       ["byte_order", "vms"],
       ["patient_name", "file"],
       ["slice_dimension", natStr dimx],
       ["pixel_size", fmt7 p],
       ["slice_distance", fmt7 d],
       ["slice_number", natStr dimz],
       ["xoffset", "0"],
       ["dimx", natStr dimx],
       ["yoffset", "0"],
       ["dimy", natStr dimy],
       ["zoffset", "0"],
       ["dimz", natStr dimz],
       ["z_table", "no"],
       []]) 13 9 (⟨true, "2.0", "CT", "user", "Created with PyTRiP98 0.0", "transversal", "integer", some 2, "vms", "file", "20260101-000000", none, none, none, none, none, 0, 0, 0, none, none, none, false, [], "", "", none, none, []⟩ : CubeSt) :=
            parseHeaderLoop_step _ _ _ _ _ _ rfl rfl (hPn _)
      _ = parseHeaderLoop ([["version", "2.0"],
       ["modality", "CT"],
       ["created_by", "user"],
       ["creation_info", "Created", "with", "PyTRiP98", "0.0"],
       ["primary_view", "transversal"],
       ["data_type", "integer"],
       ["num_bytes", "2"],
       ["byte_order", "vms"],
       ["patient_name", "file"],
       ["slice_dimension", natStr dimx],
       ["pixel_size", fmt7 p],
       ["slice_distance", fmt7 d],
       ["slice_number", natStr dimz],
       ["xoffset", "0"],
       ["dimx", natStr dimx],
       ["yoffset", "0"],
       ["dimy", natStr dimy],
       ["zoffset", "0"],
       ["dimz", natStr dimz],
       ["z_table", "no"],
       []]) 12 10 (⟨true, "2.0", "CT", "user", "Created with PyTRiP98 0.0", "transversal", "integer", some 2, "vms", "file", "20260101-000000", some (dimx : Int), none, none, none, none, 0, 0, 0, none, none, none, false, [], "", "", none, none, []⟩ : CubeSt) :=
            parseHeaderLoop_step _ _ _ _ _ _ rfl rfl (hSd _)
      _ = parseHeaderLoop ([["version", "2.0"],
       ["modality", "CT"],
       ["created_by", "user"],
       ["creation_info", "Created", "with", "PyTRiP98", "0.0"],
       ["primary_view", "transversal"],
       ["data_type", "integer"],
       ["num_bytes", "2"],
       ["byte_order", "vms"],
       ["patient_name", "file"],
       ["slice_dimension", natStr dimx],
       ["pixel_size", fmt7 p],
       ["slice_distance", fmt7 d],
       ["slice_number", natStr dimz],
       ["xoffset", "0"],
       ["dimx", natStr dimx],
       ["yoffset", "0"],
       ["dimy", natStr dimy],
       ["zoffset", "0"],
       ["dimz", natStr dimz],
       ["z_table", "no"],
       []]) 11 11 (⟨true, "2.0", "CT", "user", "Created with PyTRiP98 0.0", "transversal", "integer", some 2, "vms", "file", "20260101-000000", some (dimx : Int), some (round7 p), none, none, none, 0, 0, 0, none, none, none, false, [], "", "", none, none, []⟩ : CubeSt) :=
            parseHeaderLoop_step _ _ _ _ _ _ rfl rfl (hPs _)
      _ = parseHeaderLoop ([["version", "2.0"],
       ["modality", "CT"],
       ["created_by", "user"],
       ["creation_info", "Created", "with", "PyTRiP98", "0.0"],
       ["primary_view", "transversal"],
       ["data_type", "integer"],
       ["num_bytes", "2"],
       ["byte_order", "vms"],
       ["patient_name", "file"],
       ["slice_dimension", natStr dimx],
       ["pixel_size", fmt7 p],
       ["slice_distance", fmt7 d],
       ["slice_number", natStr dimz],
       ["xoffset", "0"],
       ["dimx", natStr dimx],
       ["yoffset", "0"],
       ["dimy", natStr dimy],
       ["zoffset", "0"],
       ["dimz", natStr dimz],
       ["z_table", "no"],
       []]) 10 12 (⟨true, "2.0", "CT", "user", "Created with PyTRiP98 0.0", "transversal", "integer", some 2, "vms", "file", "20260101-000000", some (dimx : Int), some (round7 p), some (round7 d), some (round7 d), none, 0, 0, 0, none, none, none, false, [], "", "", none, none, []⟩ : CubeSt) :=
            parseHeaderLoop_step _ _ _ _ _ _ rfl rfl (hSl _)
      _ = parseHeaderLoop ([["version", "2.0"],
       ["modality", "CT"],
       ["created_by", "user"],
       ["creation_info", "Created", "with", "PyTRiP98", "0.0"],
       ["primary_view", "transversal"],
       ["data_type", "integer"],
       ["num_bytes", "2"],
       ["byte_order", "vms"],
       ["patient_name", "file"],
       ["slice_dimension", natStr dimx],
       ["pixel_size", fmt7 p],
       ["slice_distance", fmt7 d],
       ["slice_number", natStr dimz],
       ["xoffset", "0"],
       ["dimx", natStr dimx],
       ["yoffset", "0"],
       ["dimy", natStr dimy],
       ["zoffset", "0"],
       ["dimz", natStr dimz],
       ["z_table", "no"],
       []]) 9 13 (⟨true, "2.0", "CT", "user", "Created with PyTRiP98 0.0", "transversal", "integer", some 2, "vms", "file", "20260101-000000", some (dimx : Int), some (round7 p), some (round7 d), some (round7 d), some (dimz : Int), 0, 0, 0, none, none, none, false, [], "", "", none, none, []⟩ : CubeSt) :=
            parseHeaderLoop_step _ _ _ _ _ _ rfl rfl (hSn _)
      _ = parseHeaderLoop ([["version", "2.0"],
       ["modality", "CT"],
       ["created_by", "user"],
       ["creation_info", "Created", "with", "PyTRiP98", "0.0"],
       ["primary_view", "transversal"],
       ["data_type", "integer"],
       ["num_bytes", "2"],
       ["byte_order", "vms"],
       ["patient_name", "file"],
       ["slice_dimension", natStr dimx],
       ["pixel_size", fmt7 p],
       ["slice_distance", fmt7 d],
       ["slice_number", natStr dimz],
       ["xoffset", "0"],
       ["dimx", natStr dimx],
       ["yoffset", "0"],
       ["dimy", natStr dimy],
       ["zoffset", "0"],
       ["dimz", natStr dimz],
       ["z_table", "no"],
       []]) 8 14 (⟨true, "2.0", "CT", "user", "Created with PyTRiP98 0.0", "transversal", "integer", some 2, "vms", "file", "20260101-000000", some (dimx : Int), some (round7 p), some (round7 d), some (round7 d), some (dimz : Int), 0, 0, 0, none, none, none, false, [], "", "", none, none, []⟩ : CubeSt) :=
            parseHeaderLoop_step _ _ _ _ _ _ rfl rfl (hXo _)
      _ = parseHeaderLoop ([["version", "2.0"],
       ["modality", "CT"],
       ["created_by", "user"],
       ["creation_info", "Created", "with", "PyTRiP98", "0.0"],
       ["primary_view", "transversal"],
       ["data_type", "integer"],
       ["num_bytes", "2"],
       ["byte_order", "vms"],
       ["patient_name", "file"],
       ["slice_dimension", natStr dimx],
       ["pixel_size", fmt7 p],
       ["slice_distance", fmt7 d],
       ["slice_number", natStr dimz],
       ["xoffset", "0"],
       ["dimx", natStr dimx],
       ["yoffset", "0"],
       ["dimy", natStr dimy],
       ["zoffset", "0"],
       ["dimz", natStr dimz],
       ["z_table", "no"],
       []]) 7 15 (⟨true, "2.0", "CT", "user", "Created with PyTRiP98 0.0", "transversal", "integer", some 2, "vms", "file", "20260101-000000", some (dimx : Int), some (round7 p), some (round7 d), some (round7 d), some (dimz : Int), 0, 0, 0, some (dimx : Int), none, none, false, [], "", "", none, none, []⟩ : CubeSt) :=
            parseHeaderLoop_step _ _ _ _ _ _ rfl rfl (hDx _)
      _ = parseHeaderLoop ([["version", "2.0"],
       ["modality", "CT"],
       ["created_by", "user"],
       ["creation_info", "Created", "with", "PyTRiP98", "0.0"],
       ["primary_view", "transversal"],
       ["data_type", "integer"],
       ["num_bytes", "2"],
       ["byte_order", "vms"],
       ["patient_name", "file"],
       ["slice_dimension", natStr dimx],
       ["pixel_size", fmt7 p],
       ["slice_distance", fmt7 d],
       ["slice_number", natStr dimz],
       ["xoffset", "0"],
       ["dimx", natStr dimx],
       ["yoffset", "0"],
       ["dimy", natStr dimy],
       ["zoffset", "0"],
       ["dimz", natStr dimz],
       ["z_table", "no"],
       []]) 6 16 (⟨true, "2.0", "CT", "user", "Created with PyTRiP98 0.0", "transversal", "integer", some 2, "vms", "file", "20260101-000000", some (dimx : Int), some (round7 p), some (round7 d), some (round7 d), some (dimz : Int), 0, 0, 0, some (dimx : Int), none, none, false, [], "", "", none, none, []⟩ : CubeSt) :=
            parseHeaderLoop_step _ _ _ _ _ _ rfl rfl (hYo _)
      _ = parseHeaderLoop ([["version", "2.0"],
       ["modality", "CT"],
       ["created_by", "user"],
       ["creation_info", "Created", "with", "PyTRiP98", "0.0"],
       ["primary_view", "transversal"],
       ["data_type", "integer"],
       ["num_bytes", "2"],
       ["byte_order", "vms"],
       ["patient_name", "file"],
       ["slice_dimension", natStr dimx],
       ["pixel_size", fmt7 p],
       ["slice_distance", fmt7 d],
       ["slice_number", natStr dimz],
       ["xoffset", "0"],
       ["dimx", natStr dimx],
       ["yoffset", "0"],
       ["dimy", natStr dimy],
       ["zoffset", "0"],
       ["dimz", natStr dimz],
       ["z_table", "no"],
       []]) 5 17 (⟨true, "2.0", "CT", "user", "Created with PyTRiP98 0.0", "transversal", "integer", some 2, "vms", "file", "20260101-000000", some (dimx : Int), some (round7 p), some (round7 d), some (round7 d), some (dimz : Int), 0, 0, 0, some (dimx : Int), some (dimy : Int), none, false, [], "", "", none, none, []⟩ : CubeSt) :=
            parseHeaderLoop_step _ _ _ _ _ _ rfl rfl (hDy _)
      _ = parseHeaderLoop ([["version", "2.0"],
       ["modality", "CT"],
       ["created_by", "user"],
       ["creation_info", "Created", "with", "PyTRiP98", "0.0"],
       ["primary_view", "transversal"],
       ["data_type", "integer"],
       ["num_bytes", "2"],
       ["byte_order", "vms"],
       ["patient_name", "file"],
       ["slice_dimension", natStr dimx],
       ["pixel_size", fmt7 p],
       ["slice_distance", fmt7 d],
       ["slice_number", natStr dimz],
       ["xoffset", "0"],
       ["dimx", natStr dimx],
       ["yoffset", "0"],
       ["dimy", natStr dimy],
       ["zoffset", "0"],
       ["dimz", natStr dimz],
       ["z_table", "no"],
       []]) 4 18 (⟨true, "2.0", "CT", "user", "Created with PyTRiP98 0.0", "transversal", "integer", some 2, "vms", "file", "20260101-000000", some (dimx : Int), some (round7 p), some (round7 d), some (round7 d), some (dimz : Int), 0, 0, 0, some (dimx : Int), some (dimy : Int), none, false, [], "", "", none, none, []⟩ : CubeSt) :=
            parseHeaderLoop_step _ _ _ _ _ _ rfl rfl (hZo _)
      _ = parseHeaderLoop ([["version", "2.0"],
       ["modality", "CT"],
       ["created_by", "user"],
       ["creation_info", "Created", "with", "PyTRiP98", "0.0"],
       ["primary_view", "transversal"],
       ["data_type", "integer"],
       ["num_bytes", "2"],
       ["byte_order", "vms"],
       ["patient_name", "file"],
       ["slice_dimension", natStr dimx],
       ["pixel_size", fmt7 p],
       ["slice_distance", fmt7 d],
       ["slice_number", natStr dimz],
       ["xoffset", "0"],
       ["dimx", natStr dimx],
       ["yoffset", "0"],
       ["dimy", natStr dimy],
       ["zoffset", "0"],
       ["dimz", natStr dimz],
       ["z_table", "no"],
       []]) 3 19 (⟨true, "2.0", "CT", "user", "Created with PyTRiP98 0.0", "transversal", "integer", some 2, "vms", "file", "20260101-000000", some (dimx : Int), some (round7 p), some (round7 d), some (round7 d), some (dimz : Int), 0, 0, 0, some (dimx : Int), some (dimy : Int), some (dimz : Int), false, [], "", "", none, none, []⟩ : CubeSt) :=
            parseHeaderLoop_step _ _ _ _ _ _ rfl rfl (hDz _)
      _ = parseHeaderLoop ([["version", "2.0"],
       ["modality", "CT"],
       ["created_by", "user"],
       ["creation_info", "Created", "with", "PyTRiP98", "0.0"],
       ["primary_view", "transversal"],
       ["data_type", "integer"],
       ["num_bytes", "2"],
       ["byte_order", "vms"],
       ["patient_name", "file"],
       ["slice_dimension", natStr dimx],
       ["pixel_size", fmt7 p],
       ["slice_distance", fmt7 d],
       ["slice_number", natStr dimz],
       ["xoffset", "0"],
       ["dimx", natStr dimx],
       ["yoffset", "0"],
       ["dimy", natStr dimy],
       ["zoffset", "0"],
       ["dimz", natStr dimz],
       ["z_table", "no"],
       []]) 2 20 (⟨true, "2.0", "CT", "user", "Created with PyTRiP98 0.0", "transversal", "integer", some 2, "vms", "file", "20260101-000000", some (dimx : Int), some (round7 p), some (round7 d), some (round7 d), some (dimz : Int), 0, 0, 0, some (dimx : Int), some (dimy : Int), some (dimz : Int), false, [], "", "", none, none, []⟩ : CubeSt) :=
            parseHeaderLoop_step _ _ _ _ _ _ rfl rfl (hZt _)
      _ = parseHeaderLoop ([["version", "2.0"],
       ["modality", "CT"],
       ["created_by", "user"],
       ["creation_info", "Created", "with", "PyTRiP98", "0.0"],
       ["primary_view", "transversal"],
       ["data_type", "integer"],
       ["num_bytes", "2"],
       ["byte_order", "vms"],
       ["patient_name", "file"],
       ["slice_dimension", natStr dimx],
       ["pixel_size", fmt7 p],
       ["slice_distance", fmt7 d],
       ["slice_number", natStr dimz],
       ["xoffset", "0"],
       ["dimx", natStr dimx],
       ["yoffset", "0"],
       ["dimy", natStr dimy],
       ["zoffset", "0"],
       ["dimz", natStr dimz],
       ["z_table", "no"],
       []]) 1 21 (⟨true, "2.0", "CT", "user", "Created with PyTRiP98 0.0", "transversal", "integer", some 2, "vms", "file", "20260101-000000", some (dimx : Int), some (round7 p), some (round7 d), some (round7 d), some (dimz : Int), 0, 0, 0, some (dimx : Int), some (dimy : Int), some (dimz : Int), false, [], "", "", none, none, []⟩ : CubeSt) :=
            parseHeaderLoop_step _ _ _ _ _ _ rfl rfl (hNil _)
      _ = .ok (⟨true, "2.0", "CT", "user", "Created with PyTRiP98 0.0", "transversal", "integer", some 2, "vms", "file", "20260101-000000", some (dimx : Int), some (round7 p), some (round7 d), some (round7 d), some (dimz : Int), 0, 0, 0, some (dimx : Int), some (dimy : Int), some (dimz : Int), false, [], "", "", none, none, []⟩ : CubeSt) := parseHeaderLoop_done _ _ _ _ rfl
  have hsf : set_format_str "vms" "integer" (some 2) none
      = .ok ("<h", some PyDataType.int16) := by rfl
  have hparse : parse_trip_header
      ([["version", "2.0"],
       ["modality", "CT"],
       ["created_by", "user"],
       ["creation_info", "Created", "with", "PyTRiP98", "0.0"],
       ["primary_view", "transversal"],
       ["data_type", "integer"],
       ["num_bytes", "2"],
       ["byte_order", "vms"],
       ["patient_name", "file"],
       ["slice_dimension", natStr dimx],
       ["pixel_size", fmt7 p],
       ["slice_distance", fmt7 d],
       ["slice_number", natStr dimz],
       ["xoffset", "0"],
       ["dimx", natStr dimx],
       ["yoffset", "0"],
       ["dimy", natStr dimy],
       ["zoffset", "0"],
       ["dimz", natStr dimz],
       ["z_table", "no"],
       []]) freshCube = .ok (⟨true, "2.0", "CT", "user", "Created with PyTRiP98 0.0", "transversal", "integer", some 2, "vms", "file", "20260101-000000", some (dimx : Int), some (round7 p), some (round7 d), some (round7 d), some (dimz : Int), 0, 0, 0, some (dimx : Int), some (dimy : Int), some (dimz : Int), false, (List.range dimz).map (fun i => (i : ℚ) * round7 d), "", "<h", some PyDataType.int16, none, []⟩ : CubeSt) := by
    simp only [parse_trip_header]
    rw [show (([["version", "2.0"],
       ["modality", "CT"],
       ["created_by", "user"],
       ["creation_info", "Created", "with", "PyTRiP98", "0.0"],
       ["primary_view", "transversal"],
       ["data_type", "integer"],
       ["num_bytes", "2"],
       ["byte_order", "vms"],
       ["patient_name", "file"],
       ["slice_dimension", natStr dimx],
       ["pixel_size", fmt7 p],
       ["slice_distance", fmt7 d],
       ["slice_number", natStr dimz],
       ["xoffset", "0"],
       ["dimx", natStr dimx],
       ["yoffset", "0"],
       ["dimy", natStr dimy],
       ["zoffset", "0"],
       ["dimz", natStr dimz],
       ["z_table", "no"],
       []] : List HLine)).length + 1 = 22 from rfl]
    rw [eLoop]
    simp [requireField, except_bind_ok, except_pure, Int.toNat_natCast, hsf]
  have hdata : read_trip_data
      (write_trip_data (create_empty_cube value dimx dimy dimz p d 0))
      (⟨true, "2.0", "CT", "user", "Created with PyTRiP98 0.0", "transversal", "integer", some 2, "vms", "file", "20260101-000000", some (dimx : Int), some (round7 p), some (round7 d), some (round7 d), some (dimz : Int), 0, 0, 0, some (dimx : Int), some (dimy : Int), some (dimz : Int), false, (List.range dimz).map (fun i => (i : ℚ) * round7 d), "", "<h", some PyDataType.int16, none, []⟩ : CubeSt)
      = .ok (List.replicate (dimz * dimy * dimx) (int16wrap value)) := by
    have hlen : (((List.replicate (dimz * dimy * dimx) (int16wrap value)).length : Int))
        = (dimx : Int) * (dimy : Int) * (dimz : Int) := by
      simp [List.length_replicate]; ring
    simp [read_trip_data, write_trip_data, create_empty_cube, freshCube,
      requireField, except_bind_ok, except_pure, hlen]
    ring
  refine ⟨(⟨true, "2.0", "CT", "user", "Created with PyTRiP98 0.0", "transversal", "integer", some 2, "vms", "file", "20260101-000000", some (dimx : Int), some (round7 p), some (round7 d), some (round7 d), some (dimz : Int), 0, 0, 0, some (dimx : Int), some (dimy : Int), some (dimz : Int), false, (List.range dimz).map (fun i => (i : ℚ) * round7 d), "", "<h", some PyDataType.int16, none, []⟩ : CubeSt), ?_, rfl, rfl, rfl, rfl, rfl, rfl, rfl, rfl, rfl, rfl, rfl, hdata⟩
  rw [hw]
  simp only [except_bind_ok, List.cons_append, List.nil_append]
  exact hparse

theorem C2_witness :
    ∃ s : CubeSt,
      ((write_trip_header (create_empty_cube 7 2 3 4 1 1 0) "file") >>=
        (fun ls => parse_trip_header (ls ++ [[]]) freshCube)) = .ok s ∧
      s.dimx = some ((2 : Nat) : Int) ∧ s.dimy = some ((3 : Nat) : Int) ∧
      s.dimz = some ((4 : Nat) : Int) ∧ s.slice_number = some ((4 : Nat) : Int) ∧
      s.data_type = "integer" ∧ s.num_bytes = some 2 ∧ s.byte_order = "vms" ∧
      s.pixel_size = some (round7 1) ∧ s.slice_distance = some (round7 1) ∧
      s.pydata_type = some .int16 ∧
      s.slice_pos = (List.range 4).map (fun i => (i : ℚ) * round7 1) ∧
      read_trip_data (write_trip_data (create_empty_cube 7 2 3 4 1 1 0)) s
        = .ok (List.replicate (4 * 3 * 2) (int16wrap 7)) :=
  C2_amended 7 2 3 4 1 1 (by norm_num) (by norm_num)

/-! ### Claim C7: slice-position synthesis without a z table -/

lemma except_eq_ok_of_toOption {e : Type} {a : Type} (x : Except e a) (v : a)
    (h : x.toOption = some v) : x = .ok v := by
  cases x <;> simp_all [Except.toOption]

lemma except_bind_error {e a b : Type} (err : e) (f : a → Except e b) :
    (Except.error err : Except e a) >>= f = .error err := rfl

set_option maxRecDepth 10000 in
theorem C7_counterexample :
    ((parse_trip_header content7 freshCube).map
      (fun s => (s.dimz, s.zoffset, s.slice_distance, s.slice_pos))).toOption
      = some (some 3, 8, some 2, [8, 10]) ∧
    ([8, 10] : List ℚ) ≠ (List.range 3).map (fun i => (8 : ℚ) + (i : ℚ) * 2) := by
  constructor
  · decide
  · decide

/-- Claim C7 (amended): after a successful parse with no slice table
(`z_table = false`), `slice_pos` is `zoffset_mm + n * slice_distance` for `n`
in `[0, slice_number)` — the loop runs over `range(self.slice_number)`
(cube.py:650), not over `dimz` as the claim states; `zoffset_mm` is the final
state's `zoffset`, already scaled by `slice_distance`. -/
theorem C7_amended (content : List HLine) (s0 s : CubeSt)
    (h : parse_trip_header content s0 = .ok s) (hz : s.z_table = false) :
    ∃ n d, s.slice_number = some n ∧ s.slice_distance = some d ∧
      s.slice_pos = (List.range n.toNat).map (fun i => s.zoffset + (i : ℚ) * d) := by
  simp only [parse_trip_header] at h
  cases h1 : parseHeaderLoop content (content.length + 1) 0
      { s0 with header_set := true, z_table := false } with
  | error e => rw [h1] at h; simp [except_bind_error] at h
  | ok s1 =>
    rw [h1] at h
    simp only [except_bind_ok] at h
    cases hps : s1.pixel_size with
    | none => simp [requireField, hps, except_bind_ok, except_bind_error] at h
    | some p =>
      cases hsd : s1.slice_distance with
      | none => simp [requireField, hps, hsd, except_bind_ok, except_bind_error] at h
      | some d =>
        simp only [requireField, hps, hsd, except_bind_ok] at h
        cases hzt : s1.z_table with
        | true =>
          simp only [hzt] at h
          simp only [Bool.not_true, except_bind_ok, except_pure] at h
          cases hfs : set_format_str s1.byte_order s1.data_type s1.num_bytes
              s1.pydata_type with
          | error e => rw [hfs] at h; simp at h
          | ok r =>
            rw [hfs] at h
            simp at h
            subst h
            simp at hz
        | false =>
          simp only [hzt] at h
          cases hsn : s1.slice_number with
          | none => simp [requireField, hsn, except_bind_ok, except_bind_error] at h
          | some n =>
            simp only [requireField, hsn, except_bind_ok, except_pure] at h
            cases hfs : set_format_str s1.byte_order s1.data_type s1.num_bytes
                s1.pydata_type with
            | error e => rw [hfs] at h; simp at h
            | ok r =>
              rw [hfs] at h
              simp at h
              subst h
              exact ⟨n, d, rfl, rfl, rfl⟩

set_option maxRecDepth 10000 in
theorem C7_witness :
    ∃ n d, c7parsed.slice_number = some n ∧ c7parsed.slice_distance = some d ∧
      c7parsed.slice_pos = (List.range n.toNat).map (fun i => c7parsed.zoffset + (i : ℚ) * d) :=
  C7_amended content7 freshCube c7parsed
    (except_eq_ok_of_toOption _ _ (by decide)) (by decide)

/-! ### Claim C8: the DVH of a uniformly dosed, fully covered cube -/

-- L2: zipWith over two maps of the same list

lemma zipWith_map_same {α β γ δ : Type} (h : β → γ → δ) (f : α → β) (g : α → γ) :
    ∀ l : List α, List.zipWith h (l.map f) (l.map g) = l.map (fun i => h (f i) (g i))
  | [] => rfl
  | x :: xs => by simp [List.zipWith, zipWith_map_same h f g xs]

-- L1: the histogram of a uniform slice is a spike of height M at v

lemma dvh_slice_uniform (M v : Nat) :
    calculate_dvh_slice_full (List.replicate M (v : Int)) =
      (List.range 1500).map (fun b => if b = v then (M : ℚ) else 0) := by
  unfold calculate_dvh_slice_full
  refine List.map_congr_left (fun b _ => ?_)
  by_cases h : b = v
  · subst h
    simp [List.countP_eq_length_filter, List.filter_replicate]
  · have : ((v : Int) = (b : Int)) = False := by
      simp [Int.natCast_inj]; omega
    simp [List.countP_eq_length_filter, List.filter_replicate, this, h]

-- L3: spike as an append of zero blocks

lemma spike_append (c : ℚ) :
    ∀ v n : Nat, v < n →
      (List.range n).map (fun i => if i = v then c else 0) =
        List.replicate v 0 ++ c :: List.replicate (n - v - 1) 0 := by
  intro v
  induction v with
  | zero =>
    intro n hn
    obtain ⟨m, rfl⟩ : ∃ m, n = m + 1 := ⟨n - 1, by omega⟩
    rw [List.range_succ_eq_map]
    simp only [List.map_cons, List.map_map, if_pos rfl]
    rw [show ((fun i => if i = 0 then c else (0:ℚ)) ∘ Nat.succ) = (fun _ => (0:ℚ)) from by
      funext i; simp]
    simp [List.map_const', List.length_range, List.replicate_succ]
  | succ v ih =>
    intro n hn
    obtain ⟨m, rfl⟩ : ∃ m, n = m + 1 := ⟨n - 1, by omega⟩
    rw [List.range_succ_eq_map]
    simp only [List.map_cons, List.map_map]
    rw [show ((fun i => if i = v + 1 then c else (0:ℚ)) ∘ Nat.succ)
        = (fun i => if i = v then c else 0) from by
      funext i; simp [Function.comp, Nat.succ_eq_add_one]]
    rw [ih m (by omega)]
    simp [List.replicate_succ]

-- L4: step as an append of blocks

lemma step_append (c : ℚ) :
    ∀ v n : Nat, v < n →
      (List.range n).map (fun i => if i ≤ v then c else 0) =
        List.replicate (v + 1) c ++ List.replicate (n - v - 1) 0 := by
  intro v
  induction v with
  | zero =>
    intro n hn
    obtain ⟨m, rfl⟩ : ∃ m, n = m + 1 := ⟨n - 1, by omega⟩
    rw [List.range_succ_eq_map]
    simp only [List.map_cons, List.map_map, if_pos (Nat.zero_le 0)]
    rw [show ((fun i => if i ≤ 0 then c else (0:ℚ)) ∘ Nat.succ) = (fun _ => (0:ℚ)) from by
      funext i; simp]
    simp [List.map_const', List.length_range, List.replicate_succ]
  | succ v ih =>
    intro n hn
    obtain ⟨m, rfl⟩ : ∃ m, n = m + 1 := ⟨n - 1, by omega⟩
    rw [List.range_succ_eq_map]
    simp only [List.map_cons, List.map_map]
    rw [show ((fun i => if i ≤ v + 1 then c else (0:ℚ)) ∘ Nat.succ)
        = (fun i => if i ≤ v then c else 0) from by
      funext i; simp [Function.comp, Nat.succ_eq_add_one]]
    rw [ih m (by omega)]
    simp [List.replicate_succ]

-- L5/L6: revcumsum on a zero-padded spike

lemma revcumsum_zeros : ∀ m : Nat, revcumsum (List.replicate m (0 : ℚ)) = List.replicate m 0
  | 0 => rfl
  | m + 1 => by
    simp only [List.replicate_succ, revcumsum, revcumsum_zeros m]
    cases m <;> simp [List.replicate_succ]

lemma revcumsum_spike (c : ℚ) :
    ∀ k m : Nat, revcumsum (List.replicate k 0 ++ c :: List.replicate m 0) =
      List.replicate (k + 1) c ++ List.replicate m 0
  | 0, m => by
    simp only [List.replicate, List.nil_append, revcumsum, revcumsum_zeros m]
    cases m <;> simp [List.replicate_succ]
  | k + 1, m => by
    have ih := revcumsum_spike c k m
    simp only [List.replicate_succ, List.cons_append]
    rw [revcumsum, ih]
    simp [List.replicate_succ]

-- L8/L9: whereIdx on appends and constant blocks

lemma whereIdx_append (pred : ℚ → Bool) :
    ∀ (a b : List ℚ) (i : Nat),
      whereIdx pred (a ++ b) i = whereIdx pred a i ++ whereIdx pred b (i + a.length)
  | [], b, i => by simp [whereIdx]
  | x :: xs, b, i => by
    have ih := whereIdx_append pred xs b (i + 1)
    have hl : i + 1 + xs.length = i + (xs.length + 1) := by omega
    cases hpx : pred x
    · simp only [List.cons_append, whereIdx, hpx, Bool.false_eq_true, if_false,
        List.append_eq]
      rw [ih, hl]
      simp
    · simp only [List.cons_append, whereIdx, hpx, if_true, List.append_eq]
      rw [ih, hl]
      simp

lemma whereIdx_replicate_true (pred : ℚ → Bool) (x : ℚ) (hx : pred x = true) :
    ∀ (k i : Nat), whereIdx pred (List.replicate k x) i = List.range' i k
  | 0, i => rfl
  | k + 1, i => by
    simp [List.replicate_succ, whereIdx, hx, whereIdx_replicate_true pred x hx k (i + 1),
      List.range'_succ]

lemma whereIdx_replicate_false (pred : ℚ → Bool) (x : ℚ) (hx : pred x = false) :
    ∀ (k i : Nat), whereIdx pred (List.replicate k x) i = []
  | 0, i => rfl
  | k + 1, i => by
    simp [List.replicate_succ, whereIdx, hx, whereIdx_replicate_false pred x hx k (i + 1)]

-- L10: last element of a range'

lemma getLast?_range' : ∀ (k i : Nat), 0 < k → (List.range' i k).getLast? = some (i + k - 1)
  | 0, _, h => absurd h (by omega)
  | 1, i, _ => by simp [List.range'_succ]
  | k + 2, i, _ => by
    rw [List.range'_succ, List.range'_succ, List.getLast?_cons_cons, ← List.range'_succ]
    rw [getLast?_range' (k + 1) (i + 1) (by omega)]
    congr 1
    omega

-- sum of a spike histogram

lemma spike_sum (c : ℚ) (v n : Nat) (hv : v < n) :
    (((List.range n).map (fun i => if i = v then c else 0)).sum) = c := by
  rw [spike_append c v n hv]
  simp [List.sum_append, List.sum_replicate]

-- the dvhLoop over a uniform cube accumulates a spike

lemma dvhLoop_uniform (sd : ℚ) (M v : Nat) :
    ∀ (k : Nat) (z : ℚ) (a : ℚ) (flag : Bool),
      dvhLoop sd (fun _ => true) (List.replicate k (List.replicate M (v : Int))) z
        ((List.range 1500).map (fun b => if b = v then a else 0)) flag =
      ((List.range 1500).map (fun b => if b = v then a + (k : ℚ) * (M : ℚ) else 0),
       flag || decide (0 < k))
  | 0, z, a, flag => by simp [dvhLoop]
  | k + 1, z, a, flag => by
    rw [List.replicate_succ]
    show dvhLoop sd (fun _ => true) _ _ _ _ = _
    rw [dvhLoop]
    simp only [if_pos rfl]
    rw [dvh_slice_uniform M v]
    rw [show binAdd ((List.range 1500).map (fun b => if b = v then a else 0))
          ((List.range 1500).map (fun b => if b = v then (M : ℚ) else 0))
        = (List.range 1500).map (fun b => if b = v then a + (M : ℚ) else 0) from by
      unfold binAdd
      rw [zipWith_map_same]
      exact List.map_congr_left (fun b _ => by by_cases h : b = v <;> simp [h])]
    rw [dvhLoop_uniform sd M v k (z + sd) (a + M) true]
    simp only [if_true, Prod.mk.injEq]
    refine ⟨List.map_congr_left (fun b _ => ?_), by simp⟩
    by_cases h : b = v
    · simp only [h, if_pos rfl]
      push_cast
      ring
    · simp [h]

set_option maxRecDepth 8000 in
/-- The DVH of a uniform cube, fully covered: histogram spike at `v`, step
curve, near-min `v`, near-max `v + 1`, count-weighted mean `v`, and the
`1000`-divided volume. -/
theorem calculate_dvh_uniform_eq (dimx dimy dimz v : Nat) (ps sd : ℚ)
    (hM : 0 < dimx * dimy) (hz : 0 < dimz) (hv : v < 1499) :
    calculate_dvh (uniformDoseCube dimx dimy dimz v) ps sd (fun _ => true)
      = some ((List.range 1500).map (fun (i : Nat) => ((i : ℚ) / 1000, if i ≤ v then (1 : ℚ) else 0)),
              (v : ℚ) / 1000, ((v : ℚ) + 1) / 1000, (v : ℚ) / 1000,
              ((dimx * dimy * dimz : Nat) : ℚ) * (ps * ps * sd) / 1000) := by
  have hinit : (List.replicate 1500 (0 : ℚ))
      = (List.range 1500).map (fun b => if b = v then (0 : ℚ) else 0) := by
    simp [List.map_const', List.length_range]
  have hcpos : (0 : ℚ) < (dimz : ℚ) * ((dimx * dimy : Nat) : ℚ) := by
    have h1 : (0 : ℚ) < (dimz : ℚ) := by exact_mod_cast hz
    have h2 : (0 : ℚ) < ((dimx * dimy : Nat) : ℚ) := by exact_mod_cast hM
    positivity
  have hc0 : (dimz : ℚ) * ((dimx * dimy : Nat) : ℚ) ≠ 0 := ne_of_gt hcpos
  unfold calculate_dvh uniformDoseCube
  rw [hinit, dvhLoop_uniform sd (dimx * dimy) v dimz 0 0 false]
  rw [show (fun b => if b = v then 0 + (dimz : ℚ) * ((dimx * dimy : Nat) : ℚ) else 0)
      = (fun b => if b = v then (dimz : ℚ) * ((dimx * dimy : Nat) : ℚ) else 0) from by
    funext b; rw [zero_add]]
  rw [show decide (0 < dimz) = true from by simp [hz]]
  simp only [Bool.or_true, if_true]
  set c := (dimz : ℚ) * ((dimx * dimy : Nat) : ℚ) with hcdef
  have hsum : ((List.range 1500).map (fun b => if b = v then c else 0)).sum = c :=
    spike_sum c v 1500 (by omega)
  rw [hsum]
  have hy : (List.map (fun x => x / c)
      (revcumsum ((List.range 1500).map (fun b => if b = v then c else 0))))
      = List.replicate (v + 1) 1 ++ List.replicate (1500 - v - 1) 0 := by
    rw [spike_append c v 1500 (by omega), revcumsum_spike]
    simp [List.map_append, div_self hc0]
  rw [hy]
  rw [whereIdx_append, whereIdx_replicate_true _ 1 (by decide),
      whereIdx_replicate_false _ 0 (by decide)]
  rw [whereIdx_append, whereIdx_replicate_false _ 1 (by decide),
      whereIdx_replicate_true _ 0 (by decide)]
  simp only [List.append_nil, List.nil_append, List.length_replicate, Nat.zero_add]
  rw [getLast?_range' (v + 1) 0 (by omega)]
  rw [show 1500 - v - 1 = (1498 - v) + 1 from by omega, List.range'_succ]
  simp only [List.head?_cons]
  rw [show (1498 - v + 1) = 1500 - v - 1 from by omega]
  rw [show List.replicate (v + 1) (1 : ℚ) ++ List.replicate (1500 - v - 1) 0
      = (List.range 1500).map (fun i => if i ≤ v then (1 : ℚ) else 0) from
    (step_append 1 v 1500 (by omega)).symm]
  rw [zipWith_map_same, zipWith_map_same]
  have hmc : List.map
      (fun i => (fun b x => b * x) (if i = v then c else 0) ((fun (i : Nat) => (i : ℚ)) i))
      (List.range 1500)
      = List.map (fun i => if i = v then c * (v : ℚ) else 0) (List.range 1500) :=
    List.map_congr_left (fun i _ => by
      by_cases h : i = v
      · subst h; simp
      · simp [h])
  rw [hmc, spike_sum (c * (v : ℚ)) v 1500 (by omega)]
  rw [mul_comm c ((v : ℚ)), mul_div_assoc, div_self hc0, mul_one]
  rw [show 0 + (v + 1) - 1 = v from by omega]
  simp only [Option.some.injEq, Prod.mk.injEq]
  refine ⟨trivial, trivial, by push_cast; ring, trivial, by rw [hcdef]; push_cast; ring⟩

theorem C8_counterexample :
    calculate_dvh (uniformDoseCube 1 1 1 1000) 1 1 (fun _ => true)
      = some ((List.range 1500).map
                (fun (i : Nat) => ((i : ℚ) / 1000, if i ≤ 1000 then (1 : ℚ) else 0)),
              1, 1001 / 1000, 1, 1 / 1000) ∧
    (1 / 1000 : ℚ) ≠ ((1 * 1 * 1 : Nat) : ℚ) * (1 * 1 * 1) := by
  constructor
  · rw [calculate_dvh_uniform_eq 1 1 1 1000 1 1 (by norm_num) (by norm_num) (by omega)]
    norm_num
  · norm_num

/-- Claim C8 (amended): for a region fully covering a dose cube whose voxels
all hold the per-mille value `v < 1499`, `calculate_dvh` returns the step
curve at `v` (height 1 up to `v`, then 0), near-min `v/1000` and near-max
`(v+1)/1000`, a mean dose of `v/1000` (the uniform relative dose, as claimed),
but a total volume of `count * voxel_volume / 1000` — one thousandth of the
region's physical volume, because the source divides `mean_volume` by 1000
along with the dose values (dos.py:132). -/
theorem C8_amended (dimx dimy dimz v : Nat) (ps sd : ℚ)
    (hM : 0 < dimx * dimy) (hz : 0 < dimz) (hv : v < 1499) :
    calculate_dvh (uniformDoseCube dimx dimy dimz v) ps sd (fun _ => true)
      = some ((List.range 1500).map
                (fun (i : Nat) => ((i : ℚ) / 1000, if i ≤ v then (1 : ℚ) else 0)),
              (v : ℚ) / 1000, ((v : ℚ) + 1) / 1000, (v : ℚ) / 1000,
              ((dimx * dimy * dimz : Nat) : ℚ) * (ps * ps * sd) / 1000) :=
  calculate_dvh_uniform_eq dimx dimy dimz v ps sd hM hz hv

theorem C8_witness :
    calculate_dvh (uniformDoseCube 2 1 3 1000) 1 1 (fun _ => true)
      = some ((List.range 1500).map
                (fun (i : Nat) => ((i : ℚ) / 1000, if i ≤ 1000 then (1 : ℚ) else 0)),
              ((1000 : Nat) : ℚ) / 1000, (((1000 : Nat) : ℚ) + 1) / 1000,
              ((1000 : Nat) : ℚ) / 1000,
              ((2 * 1 * 3 : Nat) : ℚ) * (1 * 1 * 1) / 1000) :=
  C8_amended 2 1 3 1000 1 1 (by norm_num) (by norm_num) (by omega)

end PyTrip
